import Mathlib

/-!
Shallow embedding of the CHIP-8 CPU core of `chip8.py` (class `Chip8CPU`,
dataclass `CPUState`), together with theorems checking the repository
specification against it.

Modelling conventions:
* Python `int` registers become `Nat` (with explicit `% 2^w` / `&&&` masks
  exactly where the source masks); the stack pointer `SP` becomes `Int`
  because the source decrements it without a guard.
* Python expressions that can raise `IndexError` (bytearray/list indexing
  out of range) are modelled with `Option`: `none` is an escaped exception.
  Python list indexing accepts negative indices (counted from the end),
  which `pyIdx` reproduces for the stack accesses.
* `random.randint(0, 255)` in `CXNN` is modelled by an explicit `rnd`
  argument to `execute`/`cycle`.
* Reads of `V[..]` and `keys[..]` use `List.getD` (never out of range in
  the source: those indices are 4-bit nibbles and both lists have 16
  entries in every reachable state).
-/

namespace Chip8

/-- Display height (rows), `DISPLAY_H` in the source. -/
def DISPLAY_H : Nat := 32

/-- Display width (columns), `DISPLAY_W` in the source. -/
def DISPLAY_W : Nat := 64

/-- `MEMORY_SIZE` in the source. -/
def MEMORY_SIZE : Nat := 4096

/-- `PROGRAM_START` in the source. -/
def PROGRAM_START : Nat := 0x200

/-- The built-in font sprite data, `FONTSET` in the source. -/
def FONTSET : List Nat :=
  [0xF0, 0x90, 0x90, 0x90, 0xF0,
   0x20, 0x60, 0x20, 0x20, 0x70,
   0xF0, 0x10, 0xF0, 0x80, 0xF0,
   0xF0, 0x10, 0xF0, 0x10, 0xF0,
   0x90, 0x90, 0xF0, 0x10, 0x10,
   0xF0, 0x80, 0xF0, 0x10, 0xF0,
   0xF0, 0x80, 0xF0, 0x90, 0xF0,
   0xF0, 0x10, 0x20, 0x40, 0x40,
   0xF0, 0x90, 0xF0, 0x90, 0xF0,
   0xF0, 0x90, 0xF0, 0x10, 0xF0,
   0xF0, 0x90, 0xF0, 0x90, 0x90,
   0xE0, 0x90, 0xE0, 0x90, 0xE0,
   0xF0, 0x80, 0x80, 0x80, 0xF0,
   0xE0, 0x90, 0x90, 0x90, 0xE0,
   0xF0, 0x80, 0xF0, 0x80, 0xF0,
   0xF0, 0x80, 0xF0, 0x80, 0x80]

/-- Quirk configuration, the `quirks` dict of `Chip8CPU.__init__`. -/
structure Quirks where
  shift_vx : Bool
  load_store_inc : Bool
  jump_v0 : Bool
deriving DecidableEq, Repr

/-- The `CPUState` dataclass. The display is a list of `DISPLAY_H` rows of
`DISPLAY_W` pixel values (`0` or `1`, mirroring the `uint8` numpy array). -/
structure CPUState where
  memory : List Nat
  V : List Nat
  I : Nat
  PC : Nat
  SP : Int
  stack : List Nat
  delay_timer : Nat
  sound_timer : Nat
  display : List (List Nat)
  keys : List Bool
  waiting_for_key : Bool
  key_register : Nat
  schip_mode : Bool
  high_res : Bool
deriving DecidableEq

/-- The `Chip8CPU` object around the state (engine flags and quirks). -/
structure Chip8CPU where
  state : CPUState
  running : Bool
  paused : Bool
  draw_flag : Bool
  quirks : Quirks
deriving DecidableEq

/-- `for i, byte in enumerate(data): memory[start + i] = byte` (used by
`_load_fontset` and `load_rom`; every index is in range at both call
sites). -/
def storeBytes (mem : List Nat) (start : Nat) (data : List Nat) : List Nat :=
  match data with
  | [] => mem
  | b :: rest => storeBytes (mem.set start b) (start + 1) rest

/-- A fresh `CPUState()` with the fontset loaded (`__init__` / `reset`). -/
def initState : CPUState :=
  { memory := storeBytes (List.replicate MEMORY_SIZE 0) 0 FONTSET
    V := List.replicate 16 0
    I := 0
    PC := PROGRAM_START
    SP := 0
    stack := List.replicate 16 0
    delay_timer := 0
    sound_timer := 0
    display := List.replicate DISPLAY_H (List.replicate DISPLAY_W 0)
    keys := List.replicate 16 false
    waiting_for_key := false
    key_register := 0
    schip_mode := false
    high_res := false }

/-- `Chip8CPU.__init__`. -/
def initCPU : Chip8CPU :=
  { state := initState
    running := false
    paused := false
    draw_flag := false
    quirks := { shift_vx := true, load_store_inc := true, jump_v0 := true } }

/-- `Chip8CPU.reset`. -/
def reset (c : Chip8CPU) : Chip8CPU :=
  { c with state := initState, running := false, paused := false, draw_flag := true }

/-- `Chip8CPU.load_rom`.  Returns the Python boolean result paired with the
machine after the call. -/
def load_rom (c : Chip8CPU) (data : List Nat) : Bool × Chip8CPU :=
  if MEMORY_SIZE - PROGRAM_START < data.length then (false, c)
  else
    let c1 := reset c
    let c2 := { c1 with
      state := { c1.state with memory := storeBytes c1.state.memory PROGRAM_START data } }
    (true, { c2 with running := true })

/-- Python list indexing: negative indices count from the end; out of
range raises (`none`). -/
def pyIdx (len : Nat) (i : Int) : Option Nat :=
  let j : Int := if i < 0 then (len : Int) + i else i
  if 0 ≤ j ∧ j < (len : Int) then some j.toNat else none

/-- `l[i]` on a Python list of naturals. -/
def pyGet (l : List Nat) (i : Int) : Option Nat :=
  (pyIdx l.length i).map fun j => l.getD j 0

/-- `l[i] = v` on a Python list of naturals. -/
def pySet (l : List Nat) (i : Int) (v : Nat) : Option (List Nat) :=
  (pyIdx l.length i).map fun j => l.set j v

/-- `memory[i] = v` on the bytearray (index is a `Nat` here; out of range
raises). -/
def memWrite (mem : List Nat) (i v : Nat) : Option (List Nat) :=
  if i < mem.length then some (mem.set i v) else none

/-- `Chip8CPU.fetch`: big-endian 16-bit read at `PC`, then `PC += 2`. -/
def fetch (s : CPUState) : Option (Nat × CPUState) :=
  match s.memory.get? s.PC, s.memory.get? (s.PC + 1) with
  | some hi, some lo => some (((hi <<< 8) ||| lo), { s with PC := s.PC + 2 })
  | _, _ => none

/-- The loop body of `FX55`: `for i in range(x+1): memory[I + i] = V[i]`,
driven by the explicit index list. -/
def storeSeq (V : List Nat) (I : Nat) : List Nat → List Nat → Option (List Nat)
  | [], mem => some mem
  | i :: rest, mem =>
    match memWrite mem (I + i) (V.getD i 0) with
    | none => none
    | some mem1 => storeSeq V I rest mem1

/-- The loop body of `FX65`: `for i in range(x+1): V[i] = memory[I + i]`. -/
def loadSeq (mem : List Nat) (I : Nat) : List Nat → List Nat → Option (List Nat)
  | [], V => some V
  | i :: rest, V =>
    match mem.get? (I + i) with
    | none => none
    | some b => loadSeq mem I rest (V.set i b)

/-- Read a display pixel (`display[r][c]`, default `0` out of range). -/
def getPix (d : List (List Nat)) (r c : Nat) : Nat :=
  (d.getD r []).getD c 0

/-- Write a display pixel. -/
def setPix (d : List (List Nat)) (r c v : Nat) : List (List Nat) :=
  d.set r ((d.getD r []).set c v)

/-- `display[py, px] ^= 1`. -/
def togglePix (d : List (List Nat)) (r c : Nat) : List (List Nat) :=
  setPix d r c (getPix d r c ^^^ 1)

/-- Inner column loop of `_draw_sprite`, over the remaining column indices
of `range(8)` (a `break` returns the accumulator unchanged). -/
def drawColsAux (byte x py : Nat) : List Nat → List (List Nat) × Nat → List (List Nat) × Nat
  | [], acc => acc
  | col :: rest, (disp, vf) =>
    if DISPLAY_W ≤ x + col then (disp, vf)
    else if byte &&& (0x80 >>> col) = 0 then drawColsAux byte x py rest (disp, vf)
    else
      let vf1 := if getPix disp py (x + col) ≠ 0 then 1 else vf
      drawColsAux byte x py rest (togglePix disp py (x + col), vf1)

/-- Outer row loop of `_draw_sprite`, over the remaining row indices of
`range(height)`; the sprite byte read `memory[I + row]` can raise. -/
def drawRowsAux (mem : List Nat) (I x y : Nat) :
    List Nat → List (List Nat) × Nat → Option (List (List Nat) × Nat)
  | [], acc => some acc
  | row :: rest, (disp, vf) =>
    if DISPLAY_H ≤ y + row then some (disp, vf)
    else
      match mem.get? (I + row) with
      | none => none
      | some byte =>
        drawRowsAux mem I x y rest (drawColsAux byte x (y + row) (List.range 8) (disp, vf))

/-- `Chip8CPU._draw_sprite` on its explicit inputs: wraps the origin, then
runs the row loop with the collision flag cleared to `0`; returns the new
display and the final value of `V[0xF]`. -/
def drawSprite (mem : List Nat) (I x y h : Nat) (disp : List (List Nat)) :
    Option (List (List Nat) × Nat) :=
  drawRowsAux mem I (x % DISPLAY_W) (y % DISPLAY_H) (List.range h) (disp, 0)

/-- `np.roll(display, k, axis=0)` on the row list. -/
def rollRows (d : List (List Nat)) (k : Nat) : List (List Nat) :=
  if d.length = 0 then d
  else d.drop (d.length - k % d.length) ++ d.take (d.length - k % d.length)

/-- `display[:k, :] = 0`. -/
def zeroFirstRows (d : List (List Nat)) (k : Nat) : List (List Nat) :=
  d.mapIdx fun i row => if i < k then List.replicate row.length 0 else row

/-- An all-zero display. -/
def clearDisplay : List (List Nat) :=
  List.replicate DISPLAY_H (List.replicate DISPLAY_W 0)

/-- `Chip8CPU.execute`.  `rnd` models the `random.randint(0, 255)` draw of
`CXNN`; `none` models an escaped `IndexError`. -/
def execute (rnd opcode : Nat) (c : Chip8CPU) : Option Chip8CPU :=
  let s := c.state
  let nnn := opcode &&& 0x0FFF
  let nn := opcode &&& 0x00FF
  let n := opcode &&& 0x000F
  let x := (opcode >>> 8) &&& 0x0F
  let y := (opcode >>> 4) &&& 0x0F
  let op := (opcode >>> 12) &&& 0xF
  let V := s.V
  if op = 0x0 then
    if opcode = 0x00E0 then
      some { c with state := { s with display := clearDisplay }, draw_flag := true }
    else if opcode = 0x00EE then
      match pyGet s.stack (s.SP - 1) with
      | none => none
      | some ret => some { c with state := { s with SP := s.SP - 1, PC := ret } }
    else if opcode = 0x00FE then
      some { c with state := { s with high_res := false } }
    else if opcode = 0x00FF then
      some { c with state := { s with high_res := true } }
    else if opcode &&& 0xFFF0 = 0x00C0 then
      some { c with
        state := { s with display := zeroFirstRows (rollRows s.display n) n }
        draw_flag := true }
    else some c
  else if op = 0x1 then
    some { c with state := { s with PC := nnn } }
  else if op = 0x2 then
    match pySet s.stack s.SP s.PC with
    | none => none
    | some st => some { c with state := { s with stack := st, SP := s.SP + 1, PC := nnn } }
  else if op = 0x3 then
    if V.getD x 0 = nn then some { c with state := { s with PC := s.PC + 2 } } else some c
  else if op = 0x4 then
    if V.getD x 0 ≠ nn then some { c with state := { s with PC := s.PC + 2 } } else some c
  else if op = 0x5 then
    if V.getD x 0 = V.getD y 0 then some { c with state := { s with PC := s.PC + 2 } }
    else some c
  else if op = 0x6 then
    some { c with state := { s with V := V.set x nn } }
  else if op = 0x7 then
    some { c with state := { s with V := V.set x ((V.getD x 0 + nn) &&& 0xFF) } }
  else if op = 0x8 then
    let z := n
    if z = 0x0 then
      some { c with state := { s with V := V.set x (V.getD y 0) } }
    else if z = 0x1 then
      some { c with state := { s with V := (V.set x (V.getD x 0 ||| V.getD y 0)).set 0xF 0 } }
    else if z = 0x2 then
      some { c with state := { s with V := (V.set x (V.getD x 0 &&& V.getD y 0)).set 0xF 0 } }
    else if z = 0x3 then
      some { c with state := { s with V := (V.set x (V.getD x 0 ^^^ V.getD y 0)).set 0xF 0 } }
    else if z = 0x4 then
      let result := V.getD x 0 + V.getD y 0
      some { c with state := { s with
        V := (V.set x (result &&& 0xFF)).set 0xF (if 255 < result then 1 else 0) } }
    else if z = 0x5 then
      let V1 := V.set 0xF (if V.getD y 0 ≤ V.getD x 0 then 1 else 0)
      some { c with state := { s with
        V := V1.set x ((((V1.getD x 0 : Int) - (V1.getD y 0 : Int)) % 256).toNat) } }
    else if z = 0x6 then
      let src := if c.quirks.shift_vx then x else y
      let V1 := V.set 0xF (V.getD src 0 &&& 0x1)
      some { c with state := { s with V := V1.set x (V1.getD src 0 >>> 1) } }
    else if z = 0x7 then
      let V1 := V.set 0xF (if V.getD x 0 ≤ V.getD y 0 then 1 else 0)
      some { c with state := { s with
        V := V1.set x ((((V1.getD y 0 : Int) - (V1.getD x 0 : Int)) % 256).toNat) } }
    else if z = 0xE then
      let src := if c.quirks.shift_vx then x else y
      let V1 := V.set 0xF ((V.getD src 0 >>> 7) &&& 0x1)
      some { c with state := { s with V := V1.set x ((V1.getD src 0 <<< 1) &&& 0xFF) } }
    else some c
  else if op = 0x9 then
    if V.getD x 0 ≠ V.getD y 0 then some { c with state := { s with PC := s.PC + 2 } }
    else some c
  else if op = 0xA then
    some { c with state := { s with I := nnn } }
  else if op = 0xB then
    if c.quirks.jump_v0 then
      some { c with state := { s with PC := nnn + V.getD 0 0 } }
    else
      some { c with state := { s with PC := nnn + V.getD x 0 } }
  else if op = 0xC then
    some { c with state := { s with V := V.set x (rnd &&& nn) } }
  else if op = 0xD then
    match drawSprite s.memory s.I (V.getD x 0) (V.getD y 0) n s.display with
    | none => none
    | some (disp, vf) =>
      some { c with state := { s with display := disp, V := V.set 0xF vf }, draw_flag := true }
  else if op = 0xE then
    if nn = 0x9E then
      if s.keys.getD (V.getD x 0 &&& 0xF) false then
        some { c with state := { s with PC := s.PC + 2 } }
      else some c
    else if nn = 0xA1 then
      if ¬ s.keys.getD (V.getD x 0 &&& 0xF) false then
        some { c with state := { s with PC := s.PC + 2 } }
      else some c
    else some c
  else if op = 0xF then
    if nn = 0x07 then
      some { c with state := { s with V := V.set x s.delay_timer } }
    else if nn = 0x0A then
      some { c with state := { s with waiting_for_key := true, key_register := x } }
    else if nn = 0x15 then
      some { c with state := { s with delay_timer := V.getD x 0 } }
    else if nn = 0x18 then
      some { c with state := { s with sound_timer := V.getD x 0 } }
    else if nn = 0x1E then
      some { c with state := { s with I := (s.I + V.getD x 0) &&& 0xFFF } }
    else if nn = 0x29 then
      some { c with state := { s with I := (V.getD x 0 &&& 0xF) * 5 } }
    else if nn = 0x30 then
      some { c with state := { s with I := (V.getD x 0 &&& 0xF) * 10 + 80 } }
    else if nn = 0x33 then
      let value := V.getD x 0
      match memWrite s.memory s.I (value / 100) with
      | none => none
      | some m1 =>
        match memWrite m1 (s.I + 1) ((value / 10) % 10) with
        | none => none
        | some m2 =>
          match memWrite m2 (s.I + 2) (value % 10) with
          | none => none
          | some m3 => some { c with state := { s with memory := m3 } }
    else if nn = 0x55 then
      match storeSeq V s.I (List.range (x + 1)) s.memory with
      | none => none
      | some mem1 =>
        if c.quirks.load_store_inc then
          some { c with state := { s with memory := mem1, I := s.I + (x + 1) } }
        else
          some { c with state := { s with memory := mem1 } }
    else if nn = 0x65 then
      match loadSeq s.memory s.I (List.range (x + 1)) V with
      | none => none
      | some V1 =>
        if c.quirks.load_store_inc then
          some { c with state := { s with V := V1, I := s.I + (x + 1) } }
        else
          some { c with state := { s with V := V1 } }
    else some c
  else some c

/-- Scan `keys` in ascending index order for the first pressed key
(the `for i, pressed in enumerate(self.state.keys)` loop of `cycle`). -/
def findPressed : List Bool → Option Nat
  | [] => none
  | k :: rest => if k then some 0 else (findPressed rest).map (· + 1)

/-- `Chip8CPU.cycle`. -/
def cycle (rnd : Nat) (c : Chip8CPU) : Option Chip8CPU :=
  if ¬ c.running ∨ c.paused then some c
  else if c.state.waiting_for_key then
    match findPressed c.state.keys with
    | none => some c
    | some i =>
      some { c with state := { c.state with
        V := c.state.V.set c.state.key_register i, waiting_for_key := false } }
  else
    match fetch c.state with
    | none => none
    | some (opcode, s1) => execute rnd opcode { c with state := s1 }

/-- Uppercase hex digit character. -/
def hexDigit (d : Nat) : Char :=
  match d with
  | 0 => '0' | 1 => '1' | 2 => '2' | 3 => '3' | 4 => '4' | 5 => '5' | 6 => '6' | 7 => '7'
  | 8 => '8' | 9 => '9' | 10 => 'A' | 11 => 'B' | 12 => 'C' | 13 => 'D' | 14 => 'E'
  | _ => 'F'

/-- Hex digits of `v` (most significant first), with structural fuel. -/
def hexDigitsAux : Nat → Nat → List Char
  | 0, _ => []
  | fuel + 1, v => if v = 0 then [] else hexDigitsAux fuel (v / 16) ++ [hexDigit (v % 16)]

/-- Python `f"{v:0wX}"`: uppercase hex, zero-padded to width `w`. -/
def fmtHex (v w : Nat) : String :=
  let ds := if v = 0 then ['0'] else hexDigitsAux v v
  String.mk (List.replicate (w - ds.length) '0' ++ ds)

/-- One pass of Python `str.replace` over a character list, with
structural fuel (the list length suffices: every step consumes at least
one character; `disassemble` only calls it with the two-character pattern
`"Vx"`). -/
def replaceListAux (pat rep : List Char) : Nat → List Char → List Char
  | 0, s => s
  | fuel + 1, s =>
    match s with
    | [] => []
    | ch :: rest =>
      if pat.isPrefixOf (ch :: rest) then
        rep ++ replaceListAux pat rep fuel ((ch :: rest).drop pat.length)
      else ch :: replaceListAux pat rep fuel rest

/-- Python `s.replace(pat, rep)` (non-overlapping, left to right). -/
def pyReplace (s pat rep : String) : String :=
  String.mk (replaceListAux pat.data rep.data s.data.length s.data)

/-- `Chip8CPU.disassemble`. -/
def disassemble (opcode : Nat) : String :=
  if opcode = 0x00E0 then "CLS"
  else if opcode = 0x00EE then "RET"
  else if ((opcode >>> 12) &&& 0xF) = 0x1 then "JP $" ++ fmtHex (opcode &&& 0x0FFF) 3
  else if ((opcode >>> 12) &&& 0xF) = 0x2 then "CALL $" ++ fmtHex (opcode &&& 0x0FFF) 3
  else if ((opcode >>> 12) &&& 0xF) = 0x3 then "SE V" ++ fmtHex ((opcode >>> 8) &&& 0x0F) 1 ++ ", $" ++ fmtHex (opcode &&& 0x00FF) 2
  else if ((opcode >>> 12) &&& 0xF) = 0x4 then "SNE V" ++ fmtHex ((opcode >>> 8) &&& 0x0F) 1 ++ ", $" ++ fmtHex (opcode &&& 0x00FF) 2
  else if ((opcode >>> 12) &&& 0xF) = 0x5 then "SE V" ++ fmtHex ((opcode >>> 8) &&& 0x0F) 1 ++ ", V" ++ fmtHex ((opcode >>> 4) &&& 0x0F) 1
  else if ((opcode >>> 12) &&& 0xF) = 0x6 then "LD V" ++ fmtHex ((opcode >>> 8) &&& 0x0F) 1 ++ ", $" ++ fmtHex (opcode &&& 0x00FF) 2
  else if ((opcode >>> 12) &&& 0xF) = 0x7 then "ADD V" ++ fmtHex ((opcode >>> 8) &&& 0x0F) 1 ++ ", $" ++ fmtHex (opcode &&& 0x00FF) 2
  else if ((opcode >>> 12) &&& 0xF) = 0x8 then
    (if (opcode &&& 0x000F) = 0 then "LD" else if (opcode &&& 0x000F) = 1 then "OR" else if (opcode &&& 0x000F) = 2 then "AND"
      else if (opcode &&& 0x000F) = 3 then "XOR" else if (opcode &&& 0x000F) = 4 then "ADD" else if (opcode &&& 0x000F) = 5 then "SUB"
      else if (opcode &&& 0x000F) = 6 then "SHR" else if (opcode &&& 0x000F) = 7 then "SUBN" else if (opcode &&& 0x000F) = 0xE then "SHL"
      else "???") ++ " V" ++ fmtHex ((opcode >>> 8) &&& 0x0F) 1 ++ ", V" ++ fmtHex ((opcode >>> 4) &&& 0x0F) 1
  else if ((opcode >>> 12) &&& 0xF) = 0x9 then "SNE V" ++ fmtHex ((opcode >>> 8) &&& 0x0F) 1 ++ ", V" ++ fmtHex ((opcode >>> 4) &&& 0x0F) 1
  else if ((opcode >>> 12) &&& 0xF) = 0xA then "LD I, $" ++ fmtHex (opcode &&& 0x0FFF) 3
  else if ((opcode >>> 12) &&& 0xF) = 0xB then "JP V0, $" ++ fmtHex (opcode &&& 0x0FFF) 3
  else if ((opcode >>> 12) &&& 0xF) = 0xC then "RND V" ++ fmtHex ((opcode >>> 8) &&& 0x0F) 1 ++ ", $" ++ fmtHex (opcode &&& 0x00FF) 2
  else if ((opcode >>> 12) &&& 0xF) = 0xD then
    "DRW V" ++ fmtHex ((opcode >>> 8) &&& 0x0F) 1 ++ ", V" ++ fmtHex ((opcode >>> 4) &&& 0x0F) 1 ++ ", " ++ Nat.repr (opcode &&& 0x000F)
  else if ((opcode >>> 12) &&& 0xF) = 0xE then
    if (opcode &&& 0x00FF) = 0x9E then "SKP V" ++ fmtHex ((opcode >>> 8) &&& 0x0F) 1
    else if (opcode &&& 0x00FF) = 0xA1 then "SKNP V" ++ fmtHex ((opcode >>> 8) &&& 0x0F) 1
    else "??? $" ++ fmtHex opcode 4
  else if ((opcode >>> 12) &&& 0xF) = 0xF then
    pyReplace
      (if (opcode &&& 0x00FF) = 0x07 then "LD Vx, DT" else if (opcode &&& 0x00FF) = 0x0A then "LD Vx, K"
      else if (opcode &&& 0x00FF) = 0x15 then "LD DT, Vx" else if (opcode &&& 0x00FF) = 0x18 then "LD ST, Vx"
      else if (opcode &&& 0x00FF) = 0x1E then "ADD I, Vx" else if (opcode &&& 0x00FF) = 0x29 then "LD F, Vx"
      else if (opcode &&& 0x00FF) = 0x33 then "LD B, Vx" else if (opcode &&& 0x00FF) = 0x55 then "LD [I], Vx"
      else if (opcode &&& 0x00FF) = 0x65 then "LD Vx, [I]"
      else "??? $" ++ fmtHex (opcode &&& 0x00FF) 2) "Vx" ("V" ++ fmtHex ((opcode >>> 8) &&& 0x0F) 1)
  else "??? $" ++ fmtHex opcode 4

/-- The canonical mnemonic table, written from the specification (and the
amended rendering of unrecognized opcodes). -/
def canonicalMnemonic (o : Nat) : String :=
  if o = 0x00E0 then "CLS"
  else if o = 0x00EE then "RET"
  else if (o / 4096 % 16) = 1 then "JP $" ++ fmtHex (o % 4096) 3
  else if (o / 4096 % 16) = 2 then "CALL $" ++ fmtHex (o % 4096) 3
  else if (o / 4096 % 16) = 3 then "SE V" ++ fmtHex (o / 256 % 16) 1 ++ ", $" ++ fmtHex (o % 256) 2
  else if (o / 4096 % 16) = 4 then "SNE V" ++ fmtHex (o / 256 % 16) 1 ++ ", $" ++ fmtHex (o % 256) 2
  else if (o / 4096 % 16) = 5 then "SE V" ++ fmtHex (o / 256 % 16) 1 ++ ", V" ++ fmtHex (o / 16 % 16) 1
  else if (o / 4096 % 16) = 6 then "LD V" ++ fmtHex (o / 256 % 16) 1 ++ ", $" ++ fmtHex (o % 256) 2
  else if (o / 4096 % 16) = 7 then "ADD V" ++ fmtHex (o / 256 % 16) 1 ++ ", $" ++ fmtHex (o % 256) 2
  else if (o / 4096 % 16) = 8 then
    (if (o % 16) = 0 then "LD" else if (o % 16) = 1 then "OR" else if (o % 16) = 2 then "AND"
      else if (o % 16) = 3 then "XOR" else if (o % 16) = 4 then "ADD" else if (o % 16) = 5 then "SUB"
      else if (o % 16) = 6 then "SHR" else if (o % 16) = 7 then "SUBN" else if (o % 16) = 14 then "SHL"
      else "???") ++ " V" ++ fmtHex (o / 256 % 16) 1 ++ ", V" ++ fmtHex (o / 16 % 16) 1
  else if (o / 4096 % 16) = 9 then "SNE V" ++ fmtHex (o / 256 % 16) 1 ++ ", V" ++ fmtHex (o / 16 % 16) 1
  else if (o / 4096 % 16) = 10 then "LD I, $" ++ fmtHex (o % 4096) 3
  else if (o / 4096 % 16) = 11 then "JP V0, $" ++ fmtHex (o % 4096) 3
  else if (o / 4096 % 16) = 12 then "RND V" ++ fmtHex (o / 256 % 16) 1 ++ ", $" ++ fmtHex (o % 256) 2
  else if (o / 4096 % 16) = 13 then
    "DRW V" ++ fmtHex (o / 256 % 16) 1 ++ ", V" ++ fmtHex (o / 16 % 16) 1 ++ ", " ++ Nat.repr (o % 16)
  else if (o / 4096 % 16) = 14 then
    if (o % 256) = 0x9E then "SKP V" ++ fmtHex (o / 256 % 16) 1
    else if (o % 256) = 0xA1 then "SKNP V" ++ fmtHex (o / 256 % 16) 1
    else "??? $" ++ fmtHex o 4
  else if (o / 4096 % 16) = 15 then
    if (o % 256) = 0x07 then "LD V" ++ fmtHex (o / 256 % 16) 1 ++ ", DT"
    else if (o % 256) = 0x0A then "LD V" ++ fmtHex (o / 256 % 16) 1 ++ ", K"
    else if (o % 256) = 0x15 then "LD DT, V" ++ fmtHex (o / 256 % 16) 1
    else if (o % 256) = 0x18 then "LD ST, V" ++ fmtHex (o / 256 % 16) 1
    else if (o % 256) = 0x1E then "ADD I, V" ++ fmtHex (o / 256 % 16) 1
    else if (o % 256) = 0x29 then "LD F, V" ++ fmtHex (o / 256 % 16) 1
    else if (o % 256) = 0x33 then "LD B, V" ++ fmtHex (o / 256 % 16) 1
    else if (o % 256) = 0x55 then "LD [I], V" ++ fmtHex (o / 256 % 16) 1
    else if (o % 256) = 0x65 then "LD V" ++ fmtHex (o / 256 % 16) 1 ++ ", [I]"
    else "??? $" ++ fmtHex (o % 256) 2
  else "??? $" ++ fmtHex o 4

/-- Toggle a list of pixels in order. -/
def applyTogglesP (d : List (List Nat)) : List (Nat × Nat) → List (List Nat)
  | [] => d
  | p :: rest => applyTogglesP (togglePix d p.1 p.2) rest

/-- The columns of one sprite row that actually get drawn: columns, in
order, up to the first clipped column, whose sprite bit is set. -/
def rowTouches (byte x : Nat) : List Nat → List Nat
  | [] => []
  | col :: rest =>
    if DISPLAY_W ≤ x + col then []
    else if byte &&& (0x80 >>> col) = 0 then rowTouches byte x rest
    else col :: rowTouches byte x rest

/-- The pixels drawn by the row loop: per non-clipped row, the pixels of
its drawn columns, concatenated in order. -/
def spriteTouches (mem : List Nat) (I x y : Nat) : List Nat → List (Nat × Nat)
  | [] => []
  | row :: rest =>
    if DISPLAY_H ≤ y + row then []
    else
      match mem.get? (I + row) with
      | none => []
      | some byte =>
        ((rowTouches byte x (List.range 8)).map fun col => (y + row, x + col)) ++
          spriteTouches mem I x y rest

/-- Well-formed display: `DISPLAY_H` rows of `DISPLAY_W` pixels, each `0`
or `1`. -/
def DisplayWf (d : List (List Nat)) : Prop :=
  d.length = DISPLAY_H ∧ ∀ row ∈ d, row.length = DISPLAY_W ∧ ∀ v ∈ row, v ≤ 1

instance (d : List (List Nat)) : Decidable (DisplayWf d) := by
  unfold DisplayWf
  infer_instance

def addSpec (V : List Nat) (x y : Nat) : List Nat :=
  (V.set x ((V.getD x 0 + V.getD y 0) % 256)).set 0xF
    (if 255 < V.getD x 0 + V.getD y 0 then 1 else 0)

def subSpec (V : List Nat) (x y : Nat) : List Nat :=
  let W := V.set 0xF (if V.getD y 0 ≤ V.getD x 0 then 1 else 0)
  W.set x ((W.getD x 0 + 256 - W.getD y 0) % 256)

def subnSpec (V : List Nat) (x y : Nat) : List Nat :=
  let W := V.set 0xF (if V.getD x 0 ≤ V.getD y 0 then 1 else 0)
  W.set x ((W.getD y 0 + 256 - W.getD x 0) % 256)

/-- Opcodes that fall through every branch of `execute` (no pattern of the
decode table fires an action). -/
def unhandledOpcode (opcode : Nat) : Bool :=
  ((opcode >>> 12) &&& 0xF == 0x0 && opcode != 0x00E0 && opcode != 0x00EE &&
    opcode != 0x00FE && opcode != 0x00FF && (opcode &&& 0xFFF0) != 0x00C0) ||
  ((opcode >>> 12) &&& 0xF == 0x8 && opcode &&& 0xF != 0x0 && opcode &&& 0xF != 0x1 &&
    opcode &&& 0xF != 0x2 && opcode &&& 0xF != 0x3 && opcode &&& 0xF != 0x4 &&
    opcode &&& 0xF != 0x5 && opcode &&& 0xF != 0x6 && opcode &&& 0xF != 0x7 &&
    opcode &&& 0xF != 0xE) ||
  ((opcode >>> 12) &&& 0xF == 0xE && opcode &&& 0xFF != 0x9E && opcode &&& 0xFF != 0xA1) ||
  ((opcode >>> 12) &&& 0xF == 0xF && opcode &&& 0xFF != 0x07 && opcode &&& 0xFF != 0x0A &&
    opcode &&& 0xFF != 0x15 && opcode &&& 0xFF != 0x18 && opcode &&& 0xFF != 0x1E &&
    opcode &&& 0xFF != 0x29 && opcode &&& 0xFF != 0x30 && opcode &&& 0xFF != 0x33 &&
    opcode &&& 0xFF != 0x55 && opcode &&& 0xFF != 0x65)

/-- A machine whose register file holds `V[0xF] = 5`, `V[1] = 3` (C1). -/
def c1m : Chip8CPU :=
  { initCPU with state := { initState with V := ((List.replicate 16 0).set 15 5).set 1 3 } }

/-- A machine with the index register at the top of its 12-bit range (C2). -/
def c2m : Chip8CPU :=
  { initCPU with state := { initState with memory := List.replicate 4096 0, I := 0xFFF } }

/-- The state of a tiny machine used to witness the index-register bound (C2). -/
def c2wState : CPUState :=
  { memory := [], V := [], I := 100, PC := 0, SP := 0, stack := [],
    delay_timer := 0, sound_timer := 0, display := [], keys := [],
    waiting_for_key := false, key_register := 0, schip_mode := false, high_res := false }

/-- A tiny machine used to witness the index-register bound (C2). -/
def c2w : Chip8CPU :=
  { state := c2wState, running := false, paused := false, draw_flag := false,
    quirks := { shift_vx := true, load_store_inc := true, jump_v0 := true } }

/-- `c2w` after `ANNN` with `nnn = 0x123`. -/
def c2w2 : Chip8CPU := { c2w with state := { c2w.state with I := 0x123 } }

/-- A machine that is running (not freshly reset) (C4). -/
def c4m : Chip8CPU := { initCPU with running := true }

/-- The state of a machine blocked on FX0A with key 3 pressed (C6). -/
def c6mState : CPUState :=
  { initState with
    waiting_for_key := true,
    key_register := 5,
    keys := (List.replicate 16 false).set 3 true }

/-- A running machine blocked on FX0A with key 3 pressed (C6). -/
def c6m : Chip8CPU :=
  { initCPU with running := true, state := c6mState }

/-- A machine with `quirks.shift_vx = false` and `V[0xF] = 4` (C8). -/
def c8m : Chip8CPU :=
  { state := { initState with V := (List.replicate 16 0).set 15 4 },
    running := false, paused := false, draw_flag := false,
    quirks := { shift_vx := false, load_store_inc := true, jump_v0 := true } }

/-- The cleared display with pixel `(0, 0)` lit (C5). -/
def wd1 : List (List Nat) :=
  (List.replicate 32 (List.replicate 64 0)).set 0 ((List.replicate 64 0).set 0 1)

/-- The cleared display with pixels `(0, 60)`-`(0, 63)` lit (C7). -/
def wd2 : List (List Nat) :=
  (List.replicate 32 (List.replicate 64 0)).set 0
    (((((List.replicate 64 0).set 60 1).set 61 1).set 62 1).set 63 1)

/-! Helper lemmas. -/

theorem getD_set_self (l : List Nat) (i v : Nat) (h : i < l.length) :
    (l.set i v).getD i 0 = v := by
  simp [List.getD_eq_getElem?_getD, List.getElem?_set, h]

theorem getD_set_ne (l : List Nat) (i j v : Nat) (h : i ≠ j) :
    (l.set i v).getD j 0 = l.getD j 0 := by
  simp [List.getD_eq_getElem?_getD, List.getElem?_set, h]

/-- Generic `getD`-after-`set` at the same index. -/
theorem getD_set_self2 {α : Type} (l : List α) (i : Nat) (v d : α) (h : i < l.length) :
    (l.set i v).getD i d = v := by
  simp [List.getD_eq_getElem?_getD, List.getElem?_set, h]

/-- Generic `getD`-after-`set` at a different index. -/
theorem getD_set_ne2 {α : Type} (l : List α) (i j : Nat) (v d : α) (h : i ≠ j) :
    (l.set i v).getD j d = l.getD j d := by
  simp [List.getD_eq_getElem?_getD, List.getElem?_set, h]

theorem getD_lt_of_forall (l : List Nat) (hV : ∀ v ∈ l, v < 256) (i : Nat) :
    l.getD i 0 < 256 := by
  by_cases h : i < l.length
  · rw [List.getD_eq_getElem l 0 h]; exact hV _ (List.getElem_mem h)
  · rw [List.getD_eq_default l 0 (Nat.le_of_not_lt h)]; omega

theorem and_255_eq_mod (a : Nat) : a &&& 255 = a % 256 :=
  Nat.and_pow_two_sub_one_eq_mod a 8

theorem length_setPix (d : List (List Nat)) (r c v : Nat) :
    (setPix d r c v).length = d.length := by
  simp [setPix]

theorem rowlen_setPix (d : List (List Nat)) (r c v r' : Nat) :
    ((setPix d r c v).getD r' []).length = ((d.getD r' []).length) := by
  by_cases h : r = r'
  · subst h
    by_cases hr : r < d.length
    · rw [setPix, getD_set_self2 _ _ _ _ hr, List.length_set]
    · rw [setPix, List.set_eq_of_length_le (Nat.le_of_not_lt hr)]
  · rw [setPix, getD_set_ne2 _ _ _ _ _ h]

theorem length_togglePix (d : List (List Nat)) (r c : Nat) :
    (togglePix d r c).length = d.length := length_setPix ..

theorem rowlen_togglePix (d : List (List Nat)) (r c r' : Nat) :
    ((togglePix d r c).getD r' []).length = (d.getD r' []).length := rowlen_setPix ..

theorem getPix_setPix_ne (d : List (List Nat)) (r c v r' c' : Nat)
    (h : r ≠ r' ∨ c ≠ c') : getPix (setPix d r c v) r' c' = getPix d r' c' := by
  by_cases hr : r = r'
  · subst hr
    rcases h with h | h
    · exact absurd rfl h
    · by_cases hlen : r < d.length
      · rw [getPix, setPix, getD_set_self2 _ _ _ _ hlen, getD_set_ne2 _ _ _ _ _ h, getPix]
      · rw [setPix, List.set_eq_of_length_le (Nat.le_of_not_lt hlen)]
  · rw [getPix, setPix, getD_set_ne2 _ _ _ _ _ hr, getPix]

theorem getPix_togglePix_ne (d : List (List Nat)) (r c r' c' : Nat)
    (h : r ≠ r' ∨ c ≠ c') : getPix (togglePix d r c) r' c' = getPix d r' c' :=
  getPix_setPix_ne _ _ _ _ _ _ h

theorem getPix_togglePix_self (d : List (List Nat)) (r c : Nat)
    (hr : r < d.length) (hc : c < (d.getD r []).length) :
    getPix (togglePix d r c) r c = getPix d r c ^^^ 1 := by
  rw [togglePix, getPix, setPix, getD_set_self2 _ _ _ _ hr, getD_set_self2 _ _ _ _ hc, getPix]

theorem length_applyTogglesP (T : List (Nat × Nat)) (d : List (List Nat)) :
    (applyTogglesP d T).length = d.length := by
  induction T generalizing d with
  | nil => rfl
  | cons p rest ih => rw [applyTogglesP, ih, length_togglePix]

theorem rowlen_applyTogglesP (T : List (Nat × Nat)) (d : List (List Nat)) (r' : Nat) :
    ((applyTogglesP d T).getD r' []).length = (d.getD r' []).length := by
  induction T generalizing d with
  | nil => rfl
  | cons p rest ih => rw [applyTogglesP, ih, rowlen_togglePix]

theorem applyTogglesP_append (T1 T2 : List (Nat × Nat)) (d : List (List Nat)) :
    applyTogglesP d (T1 ++ T2) = applyTogglesP (applyTogglesP d T1) T2 := by
  induction T1 generalizing d with
  | nil => rfl
  | cons p rest ih => rw [List.cons_append, applyTogglesP, applyTogglesP, ih]

/-- A pixel pair differing from `(r, c)` differs in one coordinate. -/
theorem pixNe (p : Nat × Nat) (r c : Nat) (h : p ≠ (r, c)) : p.1 ≠ r ∨ p.2 ≠ c := by
  by_cases h1 : p.1 = r
  · right
    intro h2
    exact h (Prod.ext h1 h2)
  · left; exact h1

/-- Pixels not in the list are untouched. -/
theorem getPix_applyTogglesP_notMem (T : List (Nat × Nat)) (d : List (List Nat)) (r c : Nat)
    (h : (r, c) ∉ T) : getPix (applyTogglesP d T) r c = getPix d r c := by
  induction T generalizing d with
  | nil => rfl
  | cons p rest ih =>
    have hne : p.1 ≠ r ∨ p.2 ≠ c :=
      pixNe p r c fun hpe => h (by rw [← hpe]; exact List.mem_cons_self _ _)
    rw [applyTogglesP, ih _ fun hm => h (List.mem_cons_of_mem _ hm),
      getPix_togglePix_ne _ _ _ _ _ hne]

/-- Pixelwise description of toggling a `Nodup` list of in-bounds pixels. -/
theorem getPix_applyTogglesP (T : List (Nat × Nat)) (d : List (List Nat)) (r c : Nat)
    (hnd : T.Nodup)
    (hb : ∀ p ∈ T, p.1 < d.length ∧ p.2 < (d.getD p.1 []).length) :
    getPix (applyTogglesP d T) r c =
      if (r, c) ∈ T then getPix d r c ^^^ 1 else getPix d r c := by
  induction T generalizing d with
  | nil => simp [applyTogglesP]
  | cons p rest ih =>
    rw [applyTogglesP]
    rcases List.nodup_cons.mp hnd with ⟨hp, hrest⟩
    have hbrest : ∀ q ∈ rest, q.1 < (togglePix d p.1 p.2).length ∧
        q.2 < ((togglePix d p.1 p.2).getD q.1 []).length := by
      intro q hq
      rw [length_togglePix, rowlen_togglePix]
      exact hb q (List.mem_cons_of_mem _ hq)
    rw [ih _ hrest hbrest]
    by_cases hm : (r, c) ∈ rest
    · have hne : p.1 ≠ r ∨ p.2 ≠ c := pixNe p r c fun hpe => hp (by rw [hpe]; exact hm)
      rw [if_pos hm, if_pos (List.mem_cons_of_mem _ hm),
        getPix_togglePix_ne _ _ _ _ _ hne]
    · rw [if_neg hm]
      by_cases hpr : p = (r, c)
      · subst hpr
        rw [if_pos (List.mem_cons_self _ _)]
        exact getPix_togglePix_self d r c (hb (r, c) (List.mem_cons_self _ _)).1
          (hb (r, c) (List.mem_cons_self _ _)).2
      · have hne : p.1 ≠ r ∨ p.2 ≠ c := pixNe p r c hpr
        have hnm : (r, c) ∉ p :: rest := by
          intro hmem
          rcases List.mem_cons.mp hmem with h | h
          · exact hpr h.symm
          · exact hm h
        rw [if_neg hnm, getPix_togglePix_ne _ _ _ _ _ hne]

theorem rowTouches_sublist (byte x : Nat) (cols : List Nat) :
    (rowTouches byte x cols).Sublist cols := by
  induction cols with
  | nil => exact List.Sublist.refl _
  | cons col rest ih =>
    rw [rowTouches]
    split
    · exact List.nil_sublist _
    · split
      · exact ih.cons _
      · exact ih.cons₂ _

theorem mem_rowTouches (byte x : Nat) (cols : List Nat) (col' : Nat)
    (h : col' ∈ rowTouches byte x cols) :
    col' ∈ cols ∧ x + col' < DISPLAY_W ∧ byte &&& (0x80 >>> col') ≠ 0 := by
  induction cols with
  | nil => cases h
  | cons col rest ih =>
    rw [rowTouches] at h
    split at h
    · cases h
    · split at h
      · have := ih h
        exact ⟨List.mem_cons_of_mem _ this.1, this.2⟩
      · rcases List.mem_cons.mp h with h1 | h1
        · subst h1
          exact ⟨List.mem_cons_self _ _, by omega, by assumption⟩
        · have := ih h1
          exact ⟨List.mem_cons_of_mem _ this.1, this.2⟩

theorem drawColsAux_spec (byte x py : Nat) (cols : List Nat) (d : List (List Nat)) (vf : Nat)
    (hnd : cols.Nodup) :
    drawColsAux byte x py cols (d, vf) =
      (applyTogglesP d ((rowTouches byte x cols).map fun col => (py, x + col)),
        if ∃ col ∈ rowTouches byte x cols, getPix d py (x + col) ≠ 0 then 1 else vf) := by
  induction cols generalizing d vf with
  | nil => simp [drawColsAux, rowTouches, applyTogglesP]
  | cons col rest ih =>
    rcases List.nodup_cons.mp hnd with ⟨hcol, hrest⟩
    rw [drawColsAux, rowTouches]
    by_cases h64 : DISPLAY_W ≤ x + col
    · rw [if_pos h64, if_pos h64]
      simp [applyTogglesP]
    · rw [if_neg h64, if_neg h64]
      by_cases hbit : byte &&& (0x80 >>> col) = 0
      · rw [if_pos hbit, if_pos hbit]
        exact ih d vf hrest
      · rw [if_neg hbit, if_neg hbit]
        have hne : ∀ col' ∈ rowTouches byte x rest, x + col' ≠ x + col := by
          intro col' hc'
          have h1 := (mem_rowTouches byte x rest col' hc').1
          have h2 : col' ≠ col := fun he => hcol (he ▸ h1)
          omega
        rw [ih (togglePix d py (x + col)) (if getPix d py (x + col) ≠ 0 then 1 else vf) hrest]
        have hex : (∃ col' ∈ rowTouches byte x rest,
            getPix (togglePix d py (x + col)) py (x + col') ≠ 0) ↔
            (∃ col' ∈ rowTouches byte x rest, getPix d py (x + col') ≠ 0) := by
          constructor
          · rintro ⟨col', hc', hg⟩
            refine ⟨col', hc', ?_⟩
            rwa [getPix_togglePix_ne _ _ _ _ _ (Or.inr (Ne.symm (hne col' hc')))] at hg
          · rintro ⟨col', hc', hg⟩
            refine ⟨col', hc', ?_⟩
            rwa [getPix_togglePix_ne _ _ _ _ _ (Or.inr (Ne.symm (hne col' hc')))]
        rw [if_congr hex rfl rfl]
        simp only [List.map_cons, applyTogglesP]
        refine Prod.ext rfl ?_
        simp only [List.exists_mem_cons_iff]
        by_cases hc : getPix d py (x + col) ≠ 0
        · by_cases h2 : ∃ col' ∈ rowTouches byte x rest, getPix d py (x + col') ≠ 0 <;>
            simp [hc, h2]
        · by_cases h2 : ∃ col' ∈ rowTouches byte x rest, getPix d py (x + col') ≠ 0 <;>
            simp [hc, h2]

theorem mem_spriteTouches (mem : List Nat) (I x y : Nat) (rows : List Nat) (p : Nat × Nat)
    (h : p ∈ spriteTouches mem I x y rows) :
    ∃ row ∈ rows, y + row < DISPLAY_H ∧ p.1 = y + row ∧
      ∃ col, col < 8 ∧ x + col < DISPLAY_W ∧ p.2 = x + col := by
  induction rows with
  | nil => cases h
  | cons row rest ih =>
    rw [spriteTouches] at h
    split at h
    · cases h
    · split at h
      · cases h
      · rcases List.mem_append.mp h with h1 | h1
        · rcases List.mem_map.mp h1 with ⟨col, hcol, hp⟩
          have hmt := mem_rowTouches _ _ _ _ hcol
          refine ⟨row, List.mem_cons_self _ _, by omega, ?_, col, ?_, hmt.2.1, ?_⟩
          · rw [← hp]
          · exact List.mem_range.mp hmt.1
          · rw [← hp]
        · rcases ih h1 with ⟨row', hr', hlt, hp1, col, hcol8, hclt, hp2⟩
          exact ⟨row', List.mem_cons_of_mem _ hr', hlt, hp1, col, hcol8, hclt, hp2⟩

theorem drawRowsAux_spec (mem : List Nat) (I x y : Nat) (rows : List Nat)
    (d : List (List Nat)) (vf : Nat) (d2 : List (List Nat)) (vf2 : Nat)
    (hnd : rows.Nodup)
    (hres : drawRowsAux mem I x y rows (d, vf) = some (d2, vf2)) :
    d2 = applyTogglesP d (spriteTouches mem I x y rows) ∧
      vf2 = if ∃ p ∈ spriteTouches mem I x y rows, getPix d p.1 p.2 ≠ 0 then 1 else vf := by
  induction rows generalizing d vf with
  | nil =>
    rw [drawRowsAux] at hres
    injection hres with hres
    injection hres with h1 h2
    constructor
    · rw [spriteTouches, applyTogglesP, h1]
    · rw [spriteTouches]
      simpa using h2.symm
  | cons row rest ih =>
    rcases List.nodup_cons.mp hnd with ⟨hrow, hrest⟩
    rw [drawRowsAux] at hres
    by_cases hclip : DISPLAY_H ≤ y + row
    · rw [if_pos hclip] at hres
      injection hres with hres
      injection hres with h1 h2
      rw [spriteTouches, if_pos hclip]
      constructor
      · rw [applyTogglesP, h1]
      · simpa using h2.symm
    · rw [if_neg hclip] at hres
      cases hbyte : mem.get? (I + row) with
      | none => rw [hbyte] at hres; cases hres
      | some byte =>
        rw [hbyte] at hres
        dsimp only at hres
        rw [spriteTouches, if_neg hclip, hbyte]
        dsimp only
        rw [drawColsAux_spec byte x (y + row) (List.range 8) d vf (List.nodup_range 8)]
          at hres
        have ihres := ih (applyTogglesP d
            ((rowTouches byte x (List.range 8)).map fun col => (y + row, x + col)))
          (if ∃ col ∈ rowTouches byte x (List.range 8),
            getPix d (y + row) (x + col) ≠ 0 then 1 else vf) hrest hres
        have hother : ∀ q ∈ spriteTouches mem I x y rest,
            getPix (applyTogglesP d
              ((rowTouches byte x (List.range 8)).map fun col => (y + row, x + col)))
              q.1 q.2 = getPix d q.1 q.2 := by
          intro q hq
          rcases mem_spriteTouches mem I x y rest q hq with ⟨row', hr', hlt, hp1, hrest2⟩
          apply getPix_applyTogglesP_notMem
          intro hmem
          rcases List.mem_map.mp hmem with ⟨col, hcm, hpe⟩
          have hq1 : y + row = q.1 := by
            have := congrArg Prod.fst hpe
            simpa using this
          have hne2 : row' ≠ row := fun he => hrow (he ▸ hr')
          omega
        constructor
        · rw [ihres.1, applyTogglesP_append]
        · rw [ihres.2]
          have hex : (∃ q ∈ spriteTouches mem I x y rest,
              getPix (applyTogglesP d
                ((rowTouches byte x (List.range 8)).map fun col => (y + row, x + col)))
                q.1 q.2 ≠ 0) ↔
              (∃ q ∈ spriteTouches mem I x y rest, getPix d q.1 q.2 ≠ 0) := by
            constructor
            · rintro ⟨q, hq, hg⟩
              refine ⟨q, hq, ?_⟩
              rwa [hother q hq] at hg
            · rintro ⟨q, hq, hg⟩
              refine ⟨q, hq, ?_⟩
              rwa [hother q hq]
          rw [if_congr hex rfl rfl]
          have hmapiff : (∃ q ∈ (rowTouches byte x (List.range 8)).map
              fun col => (y + row, x + col), getPix d q.1 q.2 ≠ 0) ↔
              (∃ col ∈ rowTouches byte x (List.range 8),
                getPix d (y + row) (x + col) ≠ 0) := by
            constructor
            · rintro ⟨q, hq, hg⟩
              rcases List.mem_map.mp hq with ⟨col, hcol, hpe⟩
              refine ⟨col, hcol, ?_⟩
              rw [← hpe] at hg
              simpa using hg
            · rintro ⟨col, hcol, hg⟩
              exact ⟨(y + row, x + col), List.mem_map.mpr ⟨col, hcol, rfl⟩, hg⟩
          have happ : (∃ p ∈ ((rowTouches byte x (List.range 8)).map
              fun col => (y + row, x + col)) ++ spriteTouches mem I x y rest,
              getPix d p.1 p.2 ≠ 0) ↔
              ((∃ col ∈ rowTouches byte x (List.range 8),
                  getPix d (y + row) (x + col) ≠ 0) ∨
                (∃ q ∈ spriteTouches mem I x y rest, getPix d q.1 q.2 ≠ 0)) := by
            constructor
            · rintro ⟨p, hp, hg⟩
              rcases List.mem_append.mp hp with hm | hm
              · exact Or.inl (hmapiff.mp ⟨p, hm, hg⟩)
              · exact Or.inr ⟨p, hm, hg⟩
            · rintro (hc | hc)
              · rcases hmapiff.mpr hc with ⟨p, hp, hg⟩
                exact ⟨p, List.mem_append_left _ hp, hg⟩
              · rcases hc with ⟨p, hp, hg⟩
                exact ⟨p, List.mem_append_right _ hp, hg⟩
          rw [if_congr happ rfl rfl]
          by_cases h1 : ∃ col ∈ rowTouches byte x (List.range 8),
              getPix d (y + row) (x + col) ≠ 0
          · by_cases h2 : ∃ q ∈ spriteTouches mem I x y rest, getPix d q.1 q.2 ≠ 0
            · rw [if_pos h2, if_pos (Or.inl h1)]
            · rw [if_neg h2, if_pos h1, if_pos (Or.inl h1)]
          · by_cases h2 : ∃ q ∈ spriteTouches mem I x y rest, getPix d q.1 q.2 ≠ 0
            · rw [if_pos h2, if_pos (Or.inr h2)]
            · rw [if_neg h2, if_neg h1, if_neg (not_or.mpr ⟨h1, h2⟩)]

theorem spriteTouches_nodup (mem : List Nat) (I x y : Nat) (rows : List Nat)
    (hnd : rows.Nodup) : (spriteTouches mem I x y rows).Nodup := by
  induction rows with
  | nil => exact List.nodup_nil
  | cons row rest ih =>
    rcases List.nodup_cons.mp hnd with ⟨hrow, hrest⟩
    rw [spriteTouches]
    split
    · exact List.nodup_nil
    · cases hbyte : mem.get? (I + row) with
      | none => exact List.nodup_nil
      | some byte =>
        dsimp only
        apply List.Nodup.append
        · refine List.Nodup.map ?_ (((rowTouches_sublist byte x (List.range 8)).nodup)
            (List.nodup_range 8))
          intro a b hab
          have := congrArg Prod.snd hab
          simp only at this
          omega
        · exact ih hrest
        · intro p hp1 hp2
          rcases List.mem_map.mp hp1 with ⟨col, _, hpe⟩
          rcases mem_spriteTouches mem I x y rest p hp2 with ⟨row', hr', _, hp1', _⟩
          have hq1 : y + row = p.1 := by
            have := congrArg Prod.fst hpe
            simpa using this
          have hne2 : row' ≠ row := fun he => hrow (he ▸ hr')
          omega

theorem DisplayWf.rowlen (d : List (List Nat)) (hwf : DisplayWf d) (r : Nat)
    (hr : r < DISPLAY_H) : (d.getD r []).length = DISPLAY_W := by
  have h0 := hwf.1
  have hlt : r < d.length := by omega
  rw [List.getD_eq_getElem _ _ hlt]
  exact (hwf.2 _ (List.getElem_mem hlt)).1

theorem DisplayWf.pix_le_one (d : List (List Nat)) (hwf : DisplayWf d) (r c : Nat) :
    getPix d r c ≤ 1 := by
  by_cases hr : r < d.length
  · rw [getPix, List.getD_eq_getElem _ _ hr]
    by_cases hc : c < d[r].length
    · rw [List.getD_eq_getElem _ _ hc]
      exact (hwf.2 _ (List.getElem_mem hr)).2 _ (List.getElem_mem hc)
    · rw [List.getD_eq_default _ _ (Nat.le_of_not_lt hc)]
      omega
  · rw [getPix, List.getD_eq_default _ _ (Nat.le_of_not_lt hr)]
    simp

theorem sprite_bounds (mem : List Nat) (I x y : Nat) (rows : List Nat)
    (disp : List (List Nat)) (hwf : DisplayWf disp) :
    ∀ p ∈ spriteTouches mem I x y rows,
      p.1 < disp.length ∧ p.2 < (disp.getD p.1 []).length := by
  intro p hp
  rcases mem_spriteTouches mem I x y rows p hp with ⟨row, _, hlt, hp1, col, _, hclt, hp2⟩
  have h0 := hwf.1
  have h1 : p.1 < DISPLAY_H := by omega
  constructor
  · omega
  · rw [DisplayWf.rowlen disp hwf p.1 h1]
    omega

theorem display_ext (d1 d2 : List (List Nat)) (hlen : d1.length = d2.length)
    (hrow : ∀ r, (d1.getD r []).length = (d2.getD r []).length)
    (hpix : ∀ r c, getPix d1 r c = getPix d2 r c) : d1 = d2 := by
  refine List.ext_getElem hlen ?_
  intro r hr1 hr2
  refine List.ext_getElem ?_ ?_
  · have := hrow r
    rwa [List.getD_eq_getElem _ _ hr1, List.getD_eq_getElem _ _ hr2] at this
  · intro c hc1 hc2
    have := hpix r c
    rwa [getPix, getPix, List.getD_eq_getElem _ _ hr1, List.getD_eq_getElem _ _ hr2,
      List.getD_eq_getElem _ _ hc1, List.getD_eq_getElem _ _ hc2] at this

theorem drawSprite_spec (mem : List Nat) (I x y h : Nat) (disp d2 : List (List Nat))
    (vf2 : Nat) (hres : drawSprite mem I x y h disp = some (d2, vf2)) :
    d2 = applyTogglesP disp
        (spriteTouches mem I (x % DISPLAY_W) (y % DISPLAY_H) (List.range h)) ∧
      vf2 = if ∃ p ∈ spriteTouches mem I (x % DISPLAY_W) (y % DISPLAY_H) (List.range h),
          getPix disp p.1 p.2 ≠ 0 then 1 else 0 :=
  drawRowsAux_spec mem I (x % DISPLAY_W) (y % DISPLAY_H) (List.range h) disp 0 d2 vf2
    (List.nodup_range h) hres

theorem findPressed_none (keys : List Bool) (h : ∀ k ∈ keys, k = false) :
    findPressed keys = none := by
  induction keys with
  | nil => rfl
  | cons k rest ih =>
    have hk := h k (List.mem_cons_self k rest)
    simp [findPressed, hk, ih fun a ha => h a (List.mem_cons_of_mem _ ha)]

theorem findPressed_some (keys : List Bool) (i : Nat) (h1 : keys.getD i false = true)
    (h2 : ∀ j, j < i → keys.getD j false = false) : findPressed keys = some i := by
  induction keys generalizing i with
  | nil => simp [List.getD] at h1
  | cons k rest ih =>
    cases i with
    | zero =>
      simp only [List.getD_cons_zero] at h1
      simp [findPressed, h1]
    | succ n =>
      have hk : k = false := by simpa using h2 0 (Nat.succ_pos n)
      have h1a : rest.getD n false = true := by simpa using h1
      have h2a : ∀ j, j < n → rest.getD j false = false := fun j hj => by
        simpa using h2 (j + 1) (by omega)
      simp [findPressed, hk, ih n h1a h2a]

theorem replace_known (x : Nat) (hx : x < 16) :
    pyReplace "LD Vx, DT" "Vx" ("V" ++ fmtHex x 1) = "LD V" ++ fmtHex x 1 ++ ", DT" ∧
    pyReplace "LD Vx, K" "Vx" ("V" ++ fmtHex x 1) = "LD V" ++ fmtHex x 1 ++ ", K" ∧
    pyReplace "LD DT, Vx" "Vx" ("V" ++ fmtHex x 1) = "LD DT, V" ++ fmtHex x 1 ∧
    pyReplace "LD ST, Vx" "Vx" ("V" ++ fmtHex x 1) = "LD ST, V" ++ fmtHex x 1 ∧
    pyReplace "ADD I, Vx" "Vx" ("V" ++ fmtHex x 1) = "ADD I, V" ++ fmtHex x 1 ∧
    pyReplace "LD F, Vx" "Vx" ("V" ++ fmtHex x 1) = "LD F, V" ++ fmtHex x 1 ∧
    pyReplace "LD B, Vx" "Vx" ("V" ++ fmtHex x 1) = "LD B, V" ++ fmtHex x 1 ∧
    pyReplace "LD [I], Vx" "Vx" ("V" ++ fmtHex x 1) = "LD [I], V" ++ fmtHex x 1 ∧
    pyReplace "LD Vx, [I]" "Vx" ("V" ++ fmtHex x 1) = "LD V" ++ fmtHex x 1 ++ ", [I]" := by
  revert hx
  revert x
  decide

set_option maxRecDepth 10000 in
theorem replace_unknown (nn x : Nat) (hnn : nn < 256) (hx : x < 16) :
    pyReplace ("??? $" ++ fmtHex nn 2) "Vx" ("V" ++ fmtHex x 1) =
      "??? $" ++ fmtHex nn 2 := by
  revert hx
  revert x
  revert hnn
  revert nn
  decide

/-! Claim theorems. -/

/-- C1 (amended): among 8XY4/8XY5/8XY7 only 8XY4 writes `V[0xF]` after the result
register; 8XY5 and 8XY7 write the flag first and then the result register, whose
operands are re-read after the flag write, so for `x = 0xF` the result write
overwrites the flag. -/
theorem alu_flag_order (rnd opcode : Nat) (c : Chip8CPU)
    (hop : (opcode >>> 12) &&& 0xF = 0x8)
    (hV : ∀ v ∈ c.state.V, v < 256) :
    (opcode &&& 0xF = 0x4 →
      execute rnd opcode c = some { c with state := { c.state with
        V := addSpec c.state.V ((opcode >>> 8) &&& 0x0F) ((opcode >>> 4) &&& 0x0F) } }) ∧
    (opcode &&& 0xF = 0x5 →
      execute rnd opcode c = some { c with state := { c.state with
        V := subSpec c.state.V ((opcode >>> 8) &&& 0x0F) ((opcode >>> 4) &&& 0x0F) } }) ∧
    (opcode &&& 0xF = 0x7 →
      execute rnd opcode c = some { c with state := { c.state with
        V := subnSpec c.state.V ((opcode >>> 8) &&& 0x0F) ((opcode >>> 4) &&& 0x0F) } }) := by
  refine ⟨fun hn => ?_, fun hn => ?_, fun hn => ?_⟩
  · norm_num [execute, hop, hn, addSpec, and_255_eq_mod, -List.getD_eq_getElem?_getD]
  · have hWlt : ∀ v ∈ (c.state.V.set 0xF
        (if c.state.V.getD ((opcode >>> 4) &&& 0x0F) 0 ≤
          c.state.V.getD ((opcode >>> 8) &&& 0x0F) 0 then 1 else 0)), v < 256 := by
      intro v hv
      rcases List.mem_or_eq_of_mem_set hv with h | h
      · exact hV v h
      · split at h <;> omega
    have ha := getD_lt_of_forall _ hWlt ((opcode >>> 8) &&& 0x0F)
    have hb := getD_lt_of_forall _ hWlt ((opcode >>> 4) &&& 0x0F)
    norm_num [execute, hop, hn, subSpec, -List.getD_eq_getElem?_getD]
    congr 1
    omega
  · have hWlt : ∀ v ∈ (c.state.V.set 0xF
        (if c.state.V.getD ((opcode >>> 8) &&& 0x0F) 0 ≤
          c.state.V.getD ((opcode >>> 4) &&& 0x0F) 0 then 1 else 0)), v < 256 := by
      intro v hv
      rcases List.mem_or_eq_of_mem_set hv with h | h
      · exact hV v h
      · split at h <;> omega
    have ha := getD_lt_of_forall _ hWlt ((opcode >>> 8) &&& 0x0F)
    have hb := getD_lt_of_forall _ hWlt ((opcode >>> 4) &&& 0x0F)
    norm_num [execute, hop, hn, subnSpec, -List.getD_eq_getElem?_getD]
    congr 1
    omega

/-- C1 counterexample: `SUB VF, V1` with `V[0xF] = 5`, `V[1] = 3` leaves
`V[0xF] = 254`, not the no-borrow flag `1` demanded by the claim. -/
theorem alu_flag_order_cex :
    (execute 0 0x8F15 c1m).map (fun c2 => c2.state.V.getD 15 0) = some 254 ∧
      ¬ (254 : Nat) = (if (3 : Nat) ≤ 5 then 1 else 0) := by
  constructor
  · rfl
  · decide

theorem alu_flag_order_witness :
    ((0x8124 >>> 12) &&& 0xF = 0x8 ∧ (∀ v ∈ initCPU.state.V, v < 256) ∧
        (0x8124 : Nat) &&& 0xF = 0x4) ∧
      execute 0 0x8124 initCPU = some { initCPU with state := { initCPU.state with
        V := addSpec initCPU.state.V 1 2 } } :=
  ⟨⟨by decide, by decide, by decide⟩, by
    exact (alu_flag_order 0 0x8124 initCPU (by decide) (by decide)).1 (by decide)⟩

/-- C2 (amended): from a state with `I ≤ 0xFFF`, a successful `execute` leaves
`I ≤ 0xFFF + 16`; every write to `I` is masked to 12 bits except the `FX55`/`FX65`
post-increment `I += x + 1`, so `I ≤ 0xFFF` holds again whenever the opcode is not
one of those two forms. -/
theorem execute_I_bound (rnd opcode : Nat) (c c2 : Chip8CPU)
    (hex : execute rnd opcode c = some c2) (hI : c.state.I ≤ 0xFFF) :
    c2.state.I ≤ 0xFFF + 16 ∧
      (((opcode >>> 12) &&& 0xF = 0xF → opcode &&& 0xFF ≠ 0x55 ∧ opcode &&& 0xFF ≠ 0x65) →
        c2.state.I ≤ 0xFFF) := by
  have hx : (opcode >>> 8) &&& 0x0F ≤ 15 := Nat.and_le_right
  have h1 : opcode &&& 0x0FFF ≤ 0xFFF := Nat.and_le_right
  have h2 : (c.state.I + c.state.V.getD ((opcode >>> 8) &&& 0x0F) 0) &&& 0xFFF ≤ 0xFFF :=
    Nat.and_le_right
  have h3 : c.state.V.getD ((opcode >>> 8) &&& 0x0F) 0 &&& 0xF ≤ 15 := Nat.and_le_right
  unfold execute at hex
  dsimp only at hex
  by_cases h0 : (opcode >>> 12) &&& 0xF = 0
  · rw [if_pos h0] at hex
    repeat' split at hex
    all_goals (try cases hex)
    all_goals (try dsimp only)
    all_goals exact ⟨by omega, fun himp => by omega⟩
  rw [if_neg h0] at hex
  by_cases h1 : (opcode >>> 12) &&& 0xF = 1
  · rw [if_pos h1] at hex
    cases hex
    dsimp only
    exact ⟨by omega, fun himp => by omega⟩
  rw [if_neg h1] at hex
  by_cases h2 : (opcode >>> 12) &&& 0xF = 2
  · rw [if_pos h2] at hex
    repeat' split at hex
    all_goals (try cases hex)
    all_goals (try dsimp only)
    all_goals exact ⟨by omega, fun himp => by omega⟩
  rw [if_neg h2] at hex
  by_cases h3 : (opcode >>> 12) &&& 0xF = 3
  · rw [if_pos h3] at hex
    repeat' split at hex
    all_goals (try cases hex)
    all_goals (try dsimp only)
    all_goals exact ⟨by omega, fun himp => by omega⟩
  rw [if_neg h3] at hex
  by_cases h4 : (opcode >>> 12) &&& 0xF = 4
  · rw [if_pos h4] at hex
    repeat' split at hex
    all_goals (try cases hex)
    all_goals (try dsimp only)
    all_goals exact ⟨by omega, fun himp => by omega⟩
  rw [if_neg h4] at hex
  by_cases h5 : (opcode >>> 12) &&& 0xF = 5
  · rw [if_pos h5] at hex
    repeat' split at hex
    all_goals (try cases hex)
    all_goals (try dsimp only)
    all_goals exact ⟨by omega, fun himp => by omega⟩
  rw [if_neg h5] at hex
  by_cases h6 : (opcode >>> 12) &&& 0xF = 6
  · rw [if_pos h6] at hex
    cases hex
    dsimp only
    exact ⟨by omega, fun himp => by omega⟩
  rw [if_neg h6] at hex
  by_cases h7 : (opcode >>> 12) &&& 0xF = 7
  · rw [if_pos h7] at hex
    cases hex
    dsimp only
    exact ⟨by omega, fun himp => by omega⟩
  rw [if_neg h7] at hex
  by_cases h8 : (opcode >>> 12) &&& 0xF = 8
  · rw [if_pos h8] at hex
    by_cases hz0 : opcode &&& 0xF = 0
    · rw [if_pos hz0] at hex
      cases hex
      try dsimp only
      exact ⟨by omega, fun himp => by omega⟩
    rw [if_neg hz0] at hex
    by_cases hz1 : opcode &&& 0xF = 1
    · rw [if_pos hz1] at hex
      cases hex
      try dsimp only
      exact ⟨by omega, fun himp => by omega⟩
    rw [if_neg hz1] at hex
    by_cases hz2 : opcode &&& 0xF = 2
    · rw [if_pos hz2] at hex
      cases hex
      try dsimp only
      exact ⟨by omega, fun himp => by omega⟩
    rw [if_neg hz2] at hex
    by_cases hz3 : opcode &&& 0xF = 3
    · rw [if_pos hz3] at hex
      cases hex
      try dsimp only
      exact ⟨by omega, fun himp => by omega⟩
    rw [if_neg hz3] at hex
    by_cases hz4 : opcode &&& 0xF = 4
    · rw [if_pos hz4] at hex
      cases hex
      try dsimp only
      exact ⟨by omega, fun himp => by omega⟩
    rw [if_neg hz4] at hex
    by_cases hz5 : opcode &&& 0xF = 5
    · rw [if_pos hz5] at hex
      cases hex
      try dsimp only
      exact ⟨by omega, fun himp => by omega⟩
    rw [if_neg hz5] at hex
    by_cases hz6 : opcode &&& 0xF = 6
    · rw [if_pos hz6] at hex
      cases hex
      try dsimp only
      exact ⟨by omega, fun himp => by omega⟩
    rw [if_neg hz6] at hex
    by_cases hz7 : opcode &&& 0xF = 7
    · rw [if_pos hz7] at hex
      cases hex
      try dsimp only
      exact ⟨by omega, fun himp => by omega⟩
    rw [if_neg hz7] at hex
    by_cases hz14 : opcode &&& 0xF = 14
    · rw [if_pos hz14] at hex
      cases hex
      try dsimp only
      exact ⟨by omega, fun himp => by omega⟩
    rw [if_neg hz14] at hex
    cases hex
    try dsimp only
    exact ⟨by omega, fun himp => by omega⟩
  rw [if_neg h8] at hex
  by_cases h9 : (opcode >>> 12) &&& 0xF = 9
  · rw [if_pos h9] at hex
    repeat' split at hex
    all_goals (try cases hex)
    all_goals (try dsimp only)
    all_goals exact ⟨by omega, fun himp => by omega⟩
  rw [if_neg h9] at hex
  by_cases h10 : (opcode >>> 12) &&& 0xF = 10
  · rw [if_pos h10] at hex
    cases hex
    dsimp only
    exact ⟨by omega, fun himp => by omega⟩
  rw [if_neg h10] at hex
  by_cases h11 : (opcode >>> 12) &&& 0xF = 11
  · rw [if_pos h11] at hex
    repeat' split at hex
    all_goals (try cases hex)
    all_goals (try dsimp only)
    all_goals exact ⟨by omega, fun himp => by omega⟩
  rw [if_neg h11] at hex
  by_cases h12 : (opcode >>> 12) &&& 0xF = 12
  · rw [if_pos h12] at hex
    cases hex
    dsimp only
    exact ⟨by omega, fun himp => by omega⟩
  rw [if_neg h12] at hex
  by_cases h13 : (opcode >>> 12) &&& 0xF = 13
  · rw [if_pos h13] at hex
    repeat' split at hex
    all_goals (try cases hex)
    all_goals (try dsimp only)
    all_goals exact ⟨by omega, fun himp => by omega⟩
  rw [if_neg h13] at hex
  by_cases h14 : (opcode >>> 12) &&& 0xF = 14
  · rw [if_pos h14] at hex
    repeat' split at hex
    all_goals (try cases hex)
    all_goals (try dsimp only)
    all_goals exact ⟨by omega, fun himp => by omega⟩
  rw [if_neg h14] at hex
  by_cases hF : (opcode >>> 12) &&& 0xF = 0xF
  · rw [if_pos hF] at hex
    by_cases hn7 : opcode &&& 0xFF = 7
    · rw [if_pos hn7] at hex
      cases hex
      try dsimp only
      exact ⟨by omega, fun himp => by omega⟩
    rw [if_neg hn7] at hex
    by_cases hn10 : opcode &&& 0xFF = 10
    · rw [if_pos hn10] at hex
      cases hex
      try dsimp only
      exact ⟨by omega, fun himp => by omega⟩
    rw [if_neg hn10] at hex
    by_cases hn21 : opcode &&& 0xFF = 21
    · rw [if_pos hn21] at hex
      cases hex
      try dsimp only
      exact ⟨by omega, fun himp => by omega⟩
    rw [if_neg hn21] at hex
    by_cases hn24 : opcode &&& 0xFF = 24
    · rw [if_pos hn24] at hex
      cases hex
      try dsimp only
      exact ⟨by omega, fun himp => by omega⟩
    rw [if_neg hn24] at hex
    by_cases hn30 : opcode &&& 0xFF = 30
    · rw [if_pos hn30] at hex
      cases hex
      try dsimp only
      exact ⟨by omega, fun himp => by omega⟩
    rw [if_neg hn30] at hex
    by_cases hn41 : opcode &&& 0xFF = 41
    · rw [if_pos hn41] at hex
      cases hex
      try dsimp only
      exact ⟨by omega, fun himp => by omega⟩
    rw [if_neg hn41] at hex
    by_cases hn48 : opcode &&& 0xFF = 48
    · rw [if_pos hn48] at hex
      cases hex
      try dsimp only
      exact ⟨by omega, fun himp => by omega⟩
    rw [if_neg hn48] at hex
    by_cases hn51 : opcode &&& 0xFF = 51
    · rw [if_pos hn51] at hex
      repeat' split at hex
      all_goals (try cases hex)
      all_goals (try dsimp only)
      all_goals exact ⟨by omega, fun himp => by omega⟩
    rw [if_neg hn51] at hex
    by_cases hn85 : opcode &&& 0xFF = 85
    · rw [if_pos hn85] at hex
      repeat' split at hex
      all_goals (try cases hex)
      all_goals (try dsimp only)
      all_goals refine ⟨by omega, fun himp => ?_⟩
      all_goals obtain ⟨hne1, hne2⟩ := himp hF
      all_goals omega
    rw [if_neg hn85] at hex
    by_cases hn101 : opcode &&& 0xFF = 101
    · rw [if_pos hn101] at hex
      repeat' split at hex
      all_goals (try cases hex)
      all_goals (try dsimp only)
      all_goals refine ⟨by omega, fun himp => ?_⟩
      all_goals obtain ⟨hne1, hne2⟩ := himp hF
      all_goals omega
    rw [if_neg hn101] at hex
    cases hex
    try dsimp only
    exact ⟨by omega, fun himp => by omega⟩
  rw [if_neg hF] at hex
  cases hex
  exact ⟨by omega, fun himp => by omega⟩


/-- C2 counterexample: `FX55` with `I = 0xFFF` and `x = 0` leaves `I = 0x1000`,
outside the 12-bit range the claim asserts. -/
theorem execute_I_bound_cex :
    (execute 0 0xF055 c2m).map (fun c2 => c2.state.I) = some 0x1000 ∧
      c2m.state.I ≤ 0xFFF ∧ ¬ (0x1000 : Nat) ≤ 0xFFF := by
  refine ⟨?_, by decide, by decide⟩
  unfold execute
  dsimp only
  rw [if_neg (show ¬(((0xF055:Nat) >>> 12) &&& 0xF = 0) from by decide), if_neg (show ¬(((0xF055:Nat) >>> 12) &&& 0xF = 1) from by decide), if_neg (show ¬(((0xF055:Nat) >>> 12) &&& 0xF = 2) from by decide), if_neg (show ¬(((0xF055:Nat) >>> 12) &&& 0xF = 3) from by decide), if_neg (show ¬(((0xF055:Nat) >>> 12) &&& 0xF = 4) from by decide), if_neg (show ¬(((0xF055:Nat) >>> 12) &&& 0xF = 5) from by decide), if_neg (show ¬(((0xF055:Nat) >>> 12) &&& 0xF = 6) from by decide), if_neg (show ¬(((0xF055:Nat) >>> 12) &&& 0xF = 7) from by decide), if_neg (show ¬(((0xF055:Nat) >>> 12) &&& 0xF = 8) from by decide), if_neg (show ¬(((0xF055:Nat) >>> 12) &&& 0xF = 9) from by decide), if_neg (show ¬(((0xF055:Nat) >>> 12) &&& 0xF = 10) from by decide), if_neg (show ¬(((0xF055:Nat) >>> 12) &&& 0xF = 11) from by decide), if_neg (show ¬(((0xF055:Nat) >>> 12) &&& 0xF = 12) from by decide), if_neg (show ¬(((0xF055:Nat) >>> 12) &&& 0xF = 13) from by decide), if_neg (show ¬(((0xF055:Nat) >>> 12) &&& 0xF = 14) from by decide),
    if_pos (show ((0xF055:Nat) >>> 12) &&& 0xF = 0xF from by decide)]
  rw [if_neg (show ¬((0xF055:Nat) &&& 0xFF = 7) from by decide), if_neg (show ¬((0xF055:Nat) &&& 0xFF = 10) from by decide), if_neg (show ¬((0xF055:Nat) &&& 0xFF = 21) from by decide), if_neg (show ¬((0xF055:Nat) &&& 0xFF = 24) from by decide), if_neg (show ¬((0xF055:Nat) &&& 0xFF = 30) from by decide), if_neg (show ¬((0xF055:Nat) &&& 0xFF = 41) from by decide), if_neg (show ¬((0xF055:Nat) &&& 0xFF = 48) from by decide), if_neg (show ¬((0xF055:Nat) &&& 0xFF = 51) from by decide),
    if_pos (show (0xF055:Nat) &&& 0xFF = 0x55 from by decide)]
  rw [show List.range ((((0xF055:Nat) >>> 8) &&& 0x0F) + 1) = [0] from by decide]
  simp only [c2m, initCPU, initState, storeSeq, memWrite, List.length_replicate]
  norm_num
  decide


theorem execute_I_bound_witness :
    (execute 0 0xA123 c2w = some c2w2 ∧ c2w.state.I ≤ 0xFFF) ∧
      (c2w2.state.I ≤ 0xFFF + 16 ∧
        ((((0xA123 : Nat) >>> 12) &&& 0xF = 0xF →
            (0xA123 : Nat) &&& 0xFF ≠ 0x55 ∧ (0xA123 : Nat) &&& 0xFF ≠ 0x65) →
          c2w2.state.I ≤ 0xFFF)) :=
  ⟨⟨by decide, by decide⟩, execute_I_bound 0 0xA123 c2w c2w2 (by decide) (by decide)⟩


/-- C3 (amended): an opcode that matches no pattern of the decode table (a
`0x0`-family opcode other than 00E0/00EE/00FE/00FF/00CN, an `8XYz` with
`z` outside `{0, .., 7, E}`, an `EXnn` with `nn` outside `{9E, A1}`, or an `FXnn` with an
unhandled `nn`) leaves the whole machine unchanged and raises nothing. The
`5XYn`/`9XYn` forms with `n ≠ 0` are excluded: the source decodes them as
SE/SNE, ignoring `n`. -/
theorem unknown_opcode_noop (rnd opcode : Nat) (c : Chip8CPU)
    (h : unhandledOpcode opcode = true) : execute rnd opcode c = some c := by
  simp only [unhandledOpcode, Bool.or_eq_true, Bool.and_eq_true, beq_iff_eq,
    bne_iff_ne, ne_eq] at h
  rcases h with ((⟨⟨⟨⟨⟨hop, h1⟩, h2⟩, h3⟩, h4⟩, h5⟩ |
    ⟨⟨⟨⟨⟨⟨⟨⟨⟨hop, h1⟩, h2⟩, h3⟩, h4⟩, h5⟩, h6⟩, h7⟩, h8⟩, h9⟩) |
    ⟨⟨hop, h1⟩, h2⟩) |
    ⟨⟨⟨⟨⟨⟨⟨⟨⟨⟨hop, h1⟩, h2⟩, h3⟩, h4⟩, h5⟩, h6⟩, h7⟩, h8⟩, h9⟩, h10⟩
  · simp [execute, hop, h1, h2, h3, h4, h5]
  · simp [execute, hop, h1, h2, h3, h4, h5, h6, h7, h8, h9]
  · simp [execute, hop, h1, h2]
  · simp [execute, hop, h1, h2, h3, h4, h5, h6, h7, h8, h9, h10]

/-- C3 counterexample: `0x5121` (a 5XYn form with `n = 1 ≠ 0`) is executed as
`SE V1, V2` and advances `PC`, so it is not a no-op as the claim states. -/
theorem unknown_opcode_noop_cex :
    unhandledOpcode 0x5121 = false ∧
      (execute 0 0x5121 initCPU).map (fun c2 => c2.state.PC) = some 0x202 ∧
      initCPU.state.PC = 0x200 ∧ ¬ (0x202 : Nat) = 0x200 := by
  refine ⟨by decide, ?_, rfl, by decide⟩
  rfl

theorem unknown_opcode_noop_witness :
    unhandledOpcode 0x800F = true ∧ execute 0 0x800F initCPU = some initCPU :=
  ⟨by decide, unknown_opcode_noop 0 0x800F initCPU (by decide)⟩

/-- C4 (amended): `load_rom` succeeds exactly on payloads of at most
`4096 - 0x200 = 3584` bytes, fully resetting the state and copying the payload at
`0x200`; on a longer payload it returns `false` before calling `reset`, leaving
the machine exactly as it was (not freshly reset). -/
theorem load_rom_spec (c : Chip8CPU) (data : List Nat) :
    MEMORY_SIZE - PROGRAM_START = 3584 ∧
    load_rom c data =
      if 3584 < data.length then (false, c)
      else (true,
        { state := { initState with memory := storeBytes initState.memory PROGRAM_START data }
          running := true, paused := false, draw_flag := true, quirks := c.quirks }) := by
  refine ⟨rfl, ?_⟩
  by_cases hd : 3584 < data.length
  · rw [if_pos hd]
    unfold load_rom
    rw [if_pos (show MEMORY_SIZE - PROGRAM_START < data.length from hd)]
  · rw [if_neg hd]
    unfold load_rom reset
    rw [if_neg (show ¬ MEMORY_SIZE - PROGRAM_START < data.length from hd)]

/-- C4 counterexample: a failing `load_rom` on a running machine returns the
machine unchanged and still running, not in the freshly-reset (non-running)
state the claim asserts. -/
theorem load_rom_cex :
    load_rom c4m (List.replicate 3585 0) = (false, c4m) ∧
      c4m.running = true ∧ (reset c4m).running = false := by
  refine ⟨?_, rfl, rfl⟩
  unfold load_rom
  rw [if_pos]
  rw [List.length_replicate]
  norm_num [MEMORY_SIZE, PROGRAM_START]

/-- C5: drawing the same sprite twice at the same coordinates (same memory,
index register and origin) restores the display to its contents before the
first draw, and the second draw reports collision (`V[0xF] = 1`) exactly when
the first draw turned at least one pixel on. -/
theorem draw_double_xor (mem : List Nat) (I x y h : Nat)
    (disp d1 d2 : List (List Nat)) (vf1 vf2 : Nat) (hwf : DisplayWf disp)
    (h1 : drawSprite mem I x y h disp = some (d1, vf1))
    (h2 : drawSprite mem I x y h d1 = some (d2, vf2)) :
    d2 = disp ∧
      (vf2 = 1 ↔ ∃ r c, r < DISPLAY_H ∧ c < DISPLAY_W ∧
        getPix disp r c = 0 ∧ getPix d1 r c ≠ 0) := by
  obtain ⟨hd1, hvf1⟩ := drawSprite_spec mem I x y h disp d1 vf1 h1
  obtain ⟨hd2, hvf2⟩ := drawSprite_spec mem I x y h d1 d2 vf2 h2
  set S := spriteTouches mem I (x % DISPLAY_W) (y % DISPLAY_H) (List.range h) with hS
  have hnd : S.Nodup := spriteTouches_nodup mem I _ _ _ (List.nodup_range h)
  have hbd : ∀ p ∈ S, p.1 < disp.length ∧ p.2 < (disp.getD p.1 []).length :=
    sprite_bounds mem I _ _ _ disp hwf
  have hbd1 : ∀ p ∈ S, p.1 < d1.length ∧ p.2 < (d1.getD p.1 []).length := by
    intro p hp
    rw [hd1, length_applyTogglesP, rowlen_applyTogglesP]
    exact hbd p hp
  constructor
  · apply display_ext
    · rw [hd2, hd1, length_applyTogglesP, length_applyTogglesP]
    · intro r
      rw [hd2, hd1, rowlen_applyTogglesP, rowlen_applyTogglesP]
    · intro r c
      rw [hd2, getPix_applyTogglesP _ _ _ _ hnd hbd1]
      by_cases hm : (r, c) ∈ S
      · rw [if_pos hm, hd1, getPix_applyTogglesP _ _ _ _ hnd hbd, if_pos hm,
          Nat.xor_cancel_right]
      · rw [if_neg hm, hd1, getPix_applyTogglesP_notMem _ _ _ _ hm]
  · constructor
    · intro hv
      rw [hvf2] at hv
      by_cases hcond : ∃ p ∈ S, getPix d1 p.1 p.2 ≠ 0
      · rcases hcond with ⟨p, hp, hg⟩
        rcases mem_spriteTouches mem I _ _ _ p hp with
          ⟨row, hrow, hlt, hp1, col, hcol8, hclt, hp2⟩
        refine ⟨p.1, p.2, by omega, by omega, ?_, hg⟩
        have hpix1 : getPix d1 p.1 p.2 = getPix disp p.1 p.2 ^^^ 1 := by
          rw [hd1, getPix_applyTogglesP _ _ _ _ hnd hbd, if_pos hp]
        have hle := DisplayWf.pix_le_one disp hwf p.1 p.2
        rcases Nat.le_one_iff_eq_zero_or_eq_one.mp hle with h0 | h0
        · exact h0
        · rw [hpix1, h0] at hg
          simp at hg
      · rw [if_neg hcond] at hv
        exact absurd hv (by decide)
    · rintro ⟨r, c, hr, hc, h0, hne⟩
      rw [hvf2, if_pos ?_]
      refine ⟨(r, c), ?_, hne⟩
      by_contra hm
      apply hne
      rw [hd1, getPix_applyTogglesP_notMem _ _ _ _ hm, h0]

theorem draw_double_xor_witness :
    (DisplayWf clearDisplay ∧
        drawSprite [0x80] 0 0 0 1 clearDisplay = some (wd1, 0) ∧
        drawSprite [0x80] 0 0 0 1 wd1 = some (clearDisplay, 1)) ∧
      (clearDisplay = clearDisplay ∧
        (1 = 1 ↔ ∃ r c, r < DISPLAY_H ∧ c < DISPLAY_W ∧
          getPix clearDisplay r c = 0 ∧ getPix wd1 r c ≠ 0)) :=
  ⟨⟨by decide, by decide, by decide⟩,
    draw_double_xor [0x80] 0 0 0 1 clearDisplay wd1 clearDisplay 0 1
      (by decide) (by decide) (by decide)⟩

/-- C6: `FX0A` records the destination register and enters the waiting state
without touching `PC`; while waiting (machine running, not paused), `cycle`
performs no fetch/execute and changes nothing as long as no key is pressed, and
the first cycle that finds a pressed key writes the lowest pressed key index
into the recorded register and clears the waiting state, leaving `PC` unchanged
so normal fetch/execute resumes on the next cycle. -/
theorem fx0a_key_wait (rnd opcode i : Nat) (c : Chip8CPU) :
    ((opcode >>> 12) &&& 0xF = 0xF → opcode &&& 0xFF = 0x0A →
      execute rnd opcode c = some { c with state := { c.state with
        waiting_for_key := true, key_register := (opcode >>> 8) &&& 0x0F } }) ∧
    (c.running = true → c.paused = false → c.state.waiting_for_key = true →
      ((∀ k ∈ c.state.keys, k = false) → cycle rnd c = some c) ∧
      (c.state.keys.getD i false = true →
        (∀ j, j < i → c.state.keys.getD j false = false) →
        cycle rnd c = some { c with state := { c.state with
          V := c.state.V.set c.state.key_register i, waiting_for_key := false } })) := by
  constructor
  · intro hop hnn
    simp only [execute, hop, hnn, Nat.reduceEqDiff, reduceIte]
  · intro hr hp hw
    constructor
    · intro hk
      simp [cycle, hr, hp, hw, findPressed_none _ hk]
    · intro h1 h2
      simp [cycle, hr, hp, hw, findPressed_some _ i h1 h2]

theorem fx0a_key_wait_witness :
    (c6m.running = true ∧ c6m.paused = false ∧ c6m.state.waiting_for_key = true ∧
        c6m.state.keys.getD 3 false = true ∧
        (∀ j, j < 3 → c6m.state.keys.getD j false = false)) ∧
      cycle 0 c6m = some { c6m with state := { c6m.state with
        V := c6m.state.V.set c6m.state.key_register 3, waiting_for_key := false } } :=
  ⟨⟨rfl, rfl, rfl, by decide, by decide⟩,
    ((fx0a_key_wait 0 0 3 c6m).2 rfl rfl rfl).2 (by decide) (by decide)⟩

/-- C7: the sprite-draw routine wraps the starting coordinates modulo the
display width/height before drawing, clears `V[0xF]` first (the resulting flag
is 0 or 1 and is 0 whenever the display was all dark), and clips sprite
rows/columns falling outside the display: only pixels inside the clipped
rectangle at the wrapped origin can change. -/
theorem draw_origin_wrap_clip (mem : List Nat) (I x y h : Nat)
    (disp d1 : List (List Nat)) (vf1 : Nat) :
    drawSprite mem I x y h disp =
        drawSprite mem I (x % DISPLAY_W) (y % DISPLAY_H) h disp ∧
      (drawSprite mem I x y h disp = some (d1, vf1) →
        vf1 ≤ 1 ∧
        ((∀ r c, getPix disp r c = 0) → vf1 = 0) ∧
        (∀ r c, getPix d1 r c ≠ getPix disp r c →
          y % DISPLAY_H ≤ r ∧ r < y % DISPLAY_H + h ∧ r < DISPLAY_H ∧
          x % DISPLAY_W ≤ c ∧ c < x % DISPLAY_W + 8 ∧ c < DISPLAY_W)) := by
  constructor
  · unfold drawSprite
    rw [Nat.mod_mod_of_dvd x (dvd_refl DISPLAY_W), Nat.mod_mod_of_dvd y (dvd_refl DISPLAY_H)]
  · intro hres
    obtain ⟨hd1, hvf1⟩ := drawSprite_spec mem I x y h disp d1 vf1 hres
    refine ⟨?_, ?_, ?_⟩
    · rw [hvf1]
      split <;> omega
    · intro hz
      rw [hvf1, if_neg ?_]
      rintro ⟨p, hp, hg⟩
      exact hg (hz p.1 p.2)
    · intro r c hne
      by_cases hm : (r, c) ∈ spriteTouches mem I (x % DISPLAY_W) (y % DISPLAY_H)
          (List.range h)
      · rcases mem_spriteTouches mem I _ _ _ _ hm with
          ⟨row, hrow, hlt, hp1, col, hcol8, hclt, hp2⟩
        have hrowlt : row < h := List.mem_range.mp hrow
        simp only at hp1 hp2
        omega
      · exfalso
        apply hne
        rw [hd1, getPix_applyTogglesP_notMem _ _ _ _ hm]

theorem draw_origin_wrap_clip_witness :
    drawSprite [0xFF] 0 60 0 1 clearDisplay = some (wd2, 0) ∧
      drawSprite [0xFF] 0 60 0 1 clearDisplay =
        drawSprite [0xFF] 0 (60 % DISPLAY_W) (0 % DISPLAY_H) 1 clearDisplay ∧
      ((0 : Nat) ≤ 1 ∧
        ((∀ r c, getPix clearDisplay r c = 0) → (0 : Nat) = 0) ∧
        (∀ r c, getPix wd2 r c ≠ getPix clearDisplay r c →
          0 % DISPLAY_H ≤ r ∧ r < 0 % DISPLAY_H + 1 ∧ r < DISPLAY_H ∧
          60 % DISPLAY_W ≤ c ∧ c < 60 % DISPLAY_W + 8 ∧ c < DISPLAY_W)) :=
  ⟨by decide,
    (draw_origin_wrap_clip [0xFF] 0 60 0 1 clearDisplay wd2 0).1,
    (draw_origin_wrap_clip [0xFF] 0 60 0 1 clearDisplay wd2 0).2 (by decide)⟩

/-- C8 (amended): `8XY6`/`8XYE` read their source from `V[x]` when
`quirks.shift_vx` is set and from `V[y]` otherwise; provided neither the
destination `x` nor the selected source register is `0xF`, `V[0xF]` receives
the bit shifted out of the unshifted source (bit 0 for SHR, bit 7 for SHL) and
`V[x]` the shifted source masked to 8 bits. When the flag register overlaps
with `x` or the source, the source order clobbers these guarantees. -/
theorem shift_source_flag (rnd opcode : Nat) (c : Chip8CPU)
    (hop : (opcode >>> 12) &&& 0xF = 0x8)
    (hlen : c.state.V.length = 16)
    (hx : (opcode >>> 8) &&& 0x0F ≠ 0xF)
    (hsrc : (if c.quirks.shift_vx then (opcode >>> 8) &&& 0x0F
      else (opcode >>> 4) &&& 0x0F) ≠ 0xF) :
    (opcode &&& 0xF = 0x6 →
      (execute rnd opcode c).map (fun c2 =>
          (c2.state.V.getD ((opcode >>> 8) &&& 0x0F) 0, c2.state.V.getD 0xF 0)) =
        some (c.state.V.getD (if c.quirks.shift_vx then (opcode >>> 8) &&& 0x0F
              else (opcode >>> 4) &&& 0x0F) 0 / 2,
          c.state.V.getD (if c.quirks.shift_vx then (opcode >>> 8) &&& 0x0F
              else (opcode >>> 4) &&& 0x0F) 0 % 2)) ∧
    (opcode &&& 0xF = 0xE →
      (execute rnd opcode c).map (fun c2 =>
          (c2.state.V.getD ((opcode >>> 8) &&& 0x0F) 0, c2.state.V.getD 0xF 0)) =
        some (c.state.V.getD (if c.quirks.shift_vx then (opcode >>> 8) &&& 0x0F
              else (opcode >>> 4) &&& 0x0F) 0 * 2 % 256,
          c.state.V.getD (if c.quirks.shift_vx then (opcode >>> 8) &&& 0x0F
              else (opcode >>> 4) &&& 0x0F) 0 / 128 % 2)) := by
  have hxlen : (opcode >>> 8) &&& 0x0F < (c.state.V.set 0xF
      (c.state.V.getD (if c.quirks.shift_vx then (opcode >>> 8) &&& 0x0F
        else (opcode >>> 4) &&& 0x0F) 0 &&& 0x1)).length := by
    have : (opcode >>> 8) &&& 0x0F ≤ 15 := Nat.and_le_right
    simp [List.length_set]
    omega
  have hxlenE : (opcode >>> 8) &&& 0x0F < (c.state.V.set 0xF
      ((c.state.V.getD (if c.quirks.shift_vx then (opcode >>> 8) &&& 0x0F
        else (opcode >>> 4) &&& 0x0F) 0 >>> 7) &&& 0x1)).length := by
    have : (opcode >>> 8) &&& 0x0F ≤ 15 := Nat.and_le_right
    simp [List.length_set]
    omega
  have h15 : (15 : Nat) < c.state.V.length := by omega
  constructor
  · intro hn
    cases hq : c.quirks.shift_vx <;>
      simp only [hq, Bool.false_eq_true, reduceIte] at hsrc hxlen ⊢ <;>
      simp only [execute, hop, hn, hq, Bool.false_eq_true, Nat.reduceEqDiff, reduceIte,
        Option.map_some', Option.some.injEq, Prod.mk.injEq] <;>
      refine ⟨?_, ?_⟩
    · rw [getD_set_self _ _ _ hxlen, getD_set_ne _ _ _ _ (Ne.symm hsrc),
        Nat.shiftRight_eq_div_pow, pow_one]
    · rw [getD_set_ne _ _ _ _ hx, getD_set_self _ _ _ h15, Nat.and_one_is_mod]
    · rw [getD_set_self _ _ _ hxlen, getD_set_ne _ _ _ _ (Ne.symm hsrc),
        Nat.shiftRight_eq_div_pow, pow_one]
    · rw [getD_set_ne _ _ _ _ hx, getD_set_self _ _ _ h15, Nat.and_one_is_mod]
  · intro hn
    cases hq : c.quirks.shift_vx <;>
      simp only [hq, Bool.false_eq_true, reduceIte] at hsrc hxlenE ⊢ <;>
      simp only [execute, hop, hn, hq, Bool.false_eq_true, Nat.reduceEqDiff, reduceIte,
        Option.map_some', Option.some.injEq, Prod.mk.injEq] <;>
      refine ⟨?_, ?_⟩
    · rw [getD_set_self _ _ _ hxlenE, getD_set_ne _ _ _ _ (Ne.symm hsrc),
        Nat.shiftLeft_eq, pow_one, and_255_eq_mod]
    · rw [getD_set_ne _ _ _ _ hx, getD_set_self _ _ _ h15, Nat.and_one_is_mod,
        Nat.shiftRight_eq_div_pow, show (2:Nat)^7 = 128 from rfl]
    · rw [getD_set_self _ _ _ hxlenE, getD_set_ne _ _ _ _ (Ne.symm hsrc),
        Nat.shiftLeft_eq, pow_one, and_255_eq_mod]
    · rw [getD_set_ne _ _ _ _ hx, getD_set_self _ _ _ h15, Nat.and_one_is_mod,
        Nat.shiftRight_eq_div_pow, show (2:Nat)^7 = 128 from rfl]

/-- C8 counterexample: `8XY6` with `x = 0`, `y = 0xF`, `quirks.shift_vx = false`
and `V[0xF] = 4`: the flag write zeroes the source before it is read, so
`V[0]` becomes `0` instead of the shifted source `4 / 2 = 2`. -/
theorem shift_source_flag_cex :
    (execute 0 0x80F6 c8m).map (fun c2 => c2.state.V.getD 0 0) = some 0 ∧
      ¬ (0 : Nat) = c8m.state.V.getD 15 0 / 2 := by
  constructor
  · rfl
  · decide

theorem shift_source_flag_witness :
    (((0x8126:Nat) >>> 12) &&& 0xF = 0x8 ∧ initCPU.state.V.length = 16 ∧
        ((0x8126:Nat) >>> 8) &&& 0x0F ≠ 0xF ∧
        (if initCPU.quirks.shift_vx then ((0x8126:Nat) >>> 8) &&& 0x0F
          else ((0x8126:Nat) >>> 4) &&& 0x0F) ≠ 0xF ∧ (0x8126:Nat) &&& 0xF = 0x6) ∧
      (execute 0 0x8126 initCPU).map (fun c2 =>
          (c2.state.V.getD (((0x8126:Nat) >>> 8) &&& 0x0F) 0, c2.state.V.getD 0xF 0)) =
        some (initCPU.state.V.getD (if initCPU.quirks.shift_vx then ((0x8126:Nat) >>> 8) &&& 0x0F
              else ((0x8126:Nat) >>> 4) &&& 0x0F) 0 / 2,
          initCPU.state.V.getD (if initCPU.quirks.shift_vx then ((0x8126:Nat) >>> 8) &&& 0x0F
              else ((0x8126:Nat) >>> 4) &&& 0x0F) 0 % 2) :=
  ⟨⟨by decide, by decide, by decide, by decide, by decide⟩,
    (shift_source_flag 0 0x8126 initCPU (by decide) (by decide) (by decide) (by decide)).1
      (by decide)⟩

set_option maxHeartbeats 2000000 in
/-- C9 (amended): `disassemble` agrees on every 16-bit opcode with the
canonical mnemonic table, in which every documented opcode has its canonical
mnemonic and unrecognized opcodes render as the full `??? $hhhh` except unknown
`8XYz` forms (rendered `??? Vx, Vy`) and unhandled `FXnn` forms (rendered
`??? $nn` from the low byte only). -/
theorem disassemble_canon (o : Nat) (ho : o < 65536) :
    disassemble o = canonicalMnemonic o := by
  have s12 : o >>> 12 = o / 4096 := by rw [Nat.shiftRight_eq_div_pow]
  have s8 : o >>> 8 = o / 256 := by rw [Nat.shiftRight_eq_div_pow]
  have s4 : o >>> 4 = o / 16 := by rw [Nat.shiftRight_eq_div_pow]
  have e12 : o / 4096 &&& 0xF = o / 4096 % 16 := Nat.and_pow_two_sub_one_eq_mod _ 4
  have e8 : o / 256 &&& 0x0F = o / 256 % 16 := Nat.and_pow_two_sub_one_eq_mod _ 4
  have e4 : o / 16 &&& 0x0F = o / 16 % 16 := Nat.and_pow_two_sub_one_eq_mod _ 4
  have enn : o &&& 0x00FF = o % 256 := Nat.and_pow_two_sub_one_eq_mod _ 8
  have ennn : o &&& 0x0FFF = o % 4096 := Nat.and_pow_two_sub_one_eq_mod _ 12
  have en : o &&& 0x000F = o % 16 := Nat.and_pow_two_sub_one_eq_mod _ 4
  unfold disassemble canonicalMnemonic
  rw [s12, s8, s4, enn, ennn, en]
  rw [e12, e8, e4]
  by_cases hc0 : o = 224
  · rw [if_pos hc0, if_pos hc0]
  · rw [if_neg hc0, if_neg hc0]
    by_cases hc1 : o = 238
    · rw [if_pos hc1, if_pos hc1]
    · rw [if_neg hc1, if_neg hc1]
      by_cases hc2 : o / 4096 % 16 = 1
      · rw [if_pos hc2, if_pos hc2]
      · rw [if_neg hc2, if_neg hc2]
        by_cases hc3 : o / 4096 % 16 = 2
        · rw [if_pos hc3, if_pos hc3]
        · rw [if_neg hc3, if_neg hc3]
          by_cases hc4 : o / 4096 % 16 = 3
          · rw [if_pos hc4, if_pos hc4]
          · rw [if_neg hc4, if_neg hc4]
            by_cases hc5 : o / 4096 % 16 = 4
            · rw [if_pos hc5, if_pos hc5]
            · rw [if_neg hc5, if_neg hc5]
              by_cases hc6 : o / 4096 % 16 = 5
              · rw [if_pos hc6, if_pos hc6]
              · rw [if_neg hc6, if_neg hc6]
                by_cases hc7 : o / 4096 % 16 = 6
                · rw [if_pos hc7, if_pos hc7]
                · rw [if_neg hc7, if_neg hc7]
                  by_cases hc8 : o / 4096 % 16 = 7
                  · rw [if_pos hc8, if_pos hc8]
                  · rw [if_neg hc8, if_neg hc8]
                    by_cases hc9 : o / 4096 % 16 = 8
                    · rw [if_pos hc9, if_pos hc9]
                    · rw [if_neg hc9, if_neg hc9]
                      by_cases hc10 : o / 4096 % 16 = 9
                      · rw [if_pos hc10, if_pos hc10]
                      · rw [if_neg hc10, if_neg hc10]
                        by_cases hc11 : o / 4096 % 16 = 10
                        · rw [if_pos hc11, if_pos hc11]
                        · rw [if_neg hc11, if_neg hc11]
                          by_cases hc12 : o / 4096 % 16 = 11
                          · rw [if_pos hc12, if_pos hc12]
                          · rw [if_neg hc12, if_neg hc12]
                            by_cases hc13 : o / 4096 % 16 = 12
                            · rw [if_pos hc13, if_pos hc13]
                            · rw [if_neg hc13, if_neg hc13]
                              by_cases hc14 : o / 4096 % 16 = 13
                              · rw [if_pos hc14, if_pos hc14]
                              · rw [if_neg hc14, if_neg hc14]
                                by_cases hc15 : o / 4096 % 16 = 14
                                · rw [if_pos hc15, if_pos hc15]
                                · rw [if_neg hc15, if_neg hc15]
                                  by_cases hc16 : o / 4096 % 16 = 15
                                  · rw [if_pos hc16, if_pos hc16]
                                    split_ifs <;>
                                      first
                                      | rfl
                                      | exact (replace_known _ (Nat.mod_lt _ (by norm_num))).1
                                      | exact (replace_known _ (Nat.mod_lt _ (by norm_num))).2.1
                                      | exact (replace_known _ (Nat.mod_lt _ (by norm_num))).2.2.1
                                      | exact (replace_known _ (Nat.mod_lt _ (by norm_num))).2.2.2.1
                                      | exact (replace_known _ (Nat.mod_lt _ (by norm_num))).2.2.2.2.1
                                      | exact (replace_known _ (Nat.mod_lt _ (by norm_num))).2.2.2.2.2.1
                                      | exact (replace_known _ (Nat.mod_lt _ (by norm_num))).2.2.2.2.2.2.1
                                      | exact (replace_known _ (Nat.mod_lt _ (by norm_num))).2.2.2.2.2.2.2.1
                                      | exact (replace_known _ (Nat.mod_lt _ (by norm_num))).2.2.2.2.2.2.2.2
                                      | exact replace_unknown _ _ (Nat.mod_lt _ (by norm_num)) (Nat.mod_lt _ (by norm_num))
                                  · rw [if_neg hc16, if_neg hc16]

/-- C9 counterexample: the unhandled form `FX75` renders as `??? $75`, not as
the full four-digit `??? $F075` the claim demands. -/
theorem disassemble_canon_cex :
    disassemble 0xF075 = "??? $75" ∧ ("??? $75" : String) ≠ "??? $F075" := by
  exact ⟨rfl, by decide⟩

theorem disassemble_canon_witness :
    (0x1234 : Nat) < 65536 ∧ disassemble 0x1234 = canonicalMnemonic 0x1234 :=
  ⟨by decide, disassemble_canon 0x1234 (by decide)⟩

/-- C10: while the running flag is false or the paused flag is true, `cycle`
returns immediately with the machine bit-for-bit unchanged (no fetch, no state
or engine-flag change); a freshly constructed machine and a reset machine are
not running, so until the first successful `load_rom` every `cycle` is such a
no-op. -/
theorem cycle_idle :
    (∀ (rnd : Nat) (c : Chip8CPU), c.running = false ∨ c.paused = true →
        cycle rnd c = some c) ∧
      initCPU.running = false ∧ ∀ c : Chip8CPU, (reset c).running = false := by
  refine ⟨?_, rfl, fun c => rfl⟩
  rintro rnd c (h | h) <;> simp [cycle, h]

theorem cycle_idle_witness :
    (initCPU.running = false ∨ initCPU.paused = true) ∧ cycle 0 initCPU = some initCPU :=
  ⟨Or.inl rfl, cycle_idle.1 0 initCPU (Or.inl rfl)⟩

end Chip8
